import Mathlib

/-!
Formal model of the crypto-trading scanner's scoring and confirmation logic.

The definitions below are shallow embeddings of the Python functions in
`opportunity_scanner.py`, `confirmation_candles.py` and `flask_dashboard.py`:
pandas DataFrames become lists of records, floats become rationals, and the
few places where IEEE-754 division by zero yields `inf`/`NaN` (whose
comparisons with finite numbers are false for `NaN`) are modelled explicitly
by the `fdivGT`/`fdivLT` helpers.  The theorems settle the stated properties
of the gap detector, pattern recognizer, confluence engine, opportunity
scorer, cooldown tracker and the four-stage confirmation state machine.
-/

namespace CryptoScanner

/-- Last `n` rows of a list, like `DataFrame.tail(n)` or a `[-n:]` slice. -/
def tailN {α : Type} (n : ℕ) (l : List α) : List α :=
  l.drop (l.length - n)

/-- Boolean test "`thresh < num / den`" under IEEE-754 float semantics for a
positive finite `thresh`: when `den = 0` the Python quotient is `+inf` (test
true) for `num > 0`, `-inf` (test false) for `num < 0`, and `NaN` (test
false) for `num = 0`. -/
def fdivGT (num den thresh : ℚ) : Bool :=
  if den = 0 then decide (0 < num) else decide (thresh < num / den)

/-- Boolean test "`num / den < thresh`" under IEEE-754 float semantics for a
positive finite `thresh` (see `fdivGT`): when `den = 0` only the `-inf` case
`num < 0` makes the test true. -/
def fdivLT (num den thresh : ℚ) : Bool :=
  if den = 0 then decide (num < 0) else decide (num / den < thresh)

/-- `round(x, 1)` of the source, modelled as rounding to one decimal place.
Python rounds floats half-to-even; the bound proofs below are insensitive to
the tie-breaking rule. -/
def round1 (x : ℚ) : ℚ :=
  (round (x * 10) : ℚ) / 10

/-- Python `max(l)` on a nonempty list of floats (junk value `0` on `[]`,
which the source never reaches). -/
def listMax : List ℚ → ℚ
  | [] => 0
  | x :: xs => xs.foldl max x

/-- Python `min(l)` on a nonempty list of floats (junk value `0` on `[]`,
which the source never reaches). -/
def listMin : List ℚ → ℚ
  | [] => 0
  | x :: xs => xs.foldl min x

namespace Confirm

/-- One row of the 5-minute confirmation DataFrame built by
`ConfirmationCandleSystem.get_confirmation_data` (raw OHLCV fields; the
derived metric columns are modelled by the functions below).  Timestamps are
rationals measured in minutes. -/
structure Row where
  timestamp : ℚ
  opn : ℚ
  high : ℚ
  low : ℚ
  close : ℚ
  volume : ℚ
deriving DecidableEq

/-- `df['body_size'] = abs(close - open)`. -/
def Row.body_size (c : Row) : ℚ := |c.close - c.opn|

/-- `df['upper_wick'] = high - max(open, close)`. -/
def Row.upper_wick (c : Row) : ℚ := c.high - max c.opn c.close

/-- `df['lower_wick'] = min(open, close) - low`. -/
def Row.lower_wick (c : Row) : ℚ := min c.opn c.close - c.low

/-- `df['total_range'] = high - low`. -/
def Row.total_range (c : Row) : ℚ := c.high - c.low

/-- `df['is_bullish'] = close > open`. -/
def Row.is_bullish (c : Row) : Bool := decide (c.opn < c.close)

/-- `df['is_bearish'] = close < open`. -/
def Row.is_bearish (c : Row) : Bool := decide (c.close < c.opn)

/-- `df['volume_sma'] = volume.rolling(window=10).mean()` at row `i`:
`none` models the `NaN` produced for the first nine rows. -/
def volumeSMA (df : List Row) (i : ℕ) : Option ℚ :=
  if 9 ≤ i then some (((((df.drop (i - 9)).take 10).map Row.volume).sum) / 10)
  else none

/-- The volume-ratio test `volume / volume_sma > thresh`; a `NaN` SMA makes
the comparison false, a zero SMA follows the `inf`/`NaN` rule of `fdivGT`. -/
def volGT (v : ℚ) (sma : Option ℚ) (thresh : ℚ) : Bool :=
  match sma with
  | none => false
  | some s => fdivGT v s thresh

/-- The DataFrame with its positional index labels and the rolling volume
SMA column attached: pandas rows keep their original labels after filtering,
which the third/fourth confirmation blocks consult via `iterrows`. -/
def enrich (df : List Row) : List (ℕ × Row × Option ℚ) :=
  (List.range df.length).filterMap
    (fun i => (df.get? i).map (fun r => (i, r, volumeSMA df i)))

/-- Result of one confirmation-block check.  The source returns a
`(confirmed, confidence, details)` triple; the non-`scored` constructors
record which early-return branch produced the `(False, 0, …)` triple:
`insufficientData` for a missing or too-short DataFrame, `waiting` when no
candle past the block's time threshold exists yet, `errored` when an
exception (an out-of-bounds positional lookup) is caught by the block's
handler, and `invalidDirection` for a direction other than LONG/SHORT. -/
inductive StageOutcome where
  | insufficientData
  | waiting
  | errored
  | invalidDirection
  | scored (confirmed : Bool) (confidence : ℚ)
deriving DecidableEq

/-- The `(confirmed, confidence)` pair a caller sees: every non-`scored`
branch of the source returns `(False, 0, …)`. -/
def StageOutcome.pair : StageOutcome → Bool × ℚ
  | .scored c conf => (c, conf)
  | _ => (false, 0)

/-- Per-candle score of `check_long_confirmation` (max 4): bullish colour,
body ratio above 0.6, volume above 1.2× the 10-period average, close above
the signal price. -/
def longScore (c : Row) (sma : Option ℚ) (signal_price : ℚ) : ℕ :=
  (if c.is_bullish then 1 else 0) +
  (if fdivGT c.body_size c.total_range (6/10) then 1 else 0) +
  (if volGT c.volume sma (12/10) then 1 else 0) +
  (if decide (signal_price < c.close) then 1 else 0)

/-- Per-candle score of `check_short_confirmation` (max 4). -/
def shortScore (c : Row) (sma : Option ℚ) (signal_price : ℚ) : ℕ :=
  (if c.is_bearish then 1 else 0) +
  (if fdivGT c.body_size c.total_range (6/10) then 1 else 0) +
  (if volGT c.volume sma (12/10) then 1 else 0) +
  (if decide (c.close < signal_price) then 1 else 0)

/-- `check_long_confirmation(symbol, signal_price, signal_time)`: the fetched
5m DataFrame is passed explicitly (`none` models a failed fetch). -/
def check_long_confirmation (df : Option (List Row)) (signal_price signal_time : ℚ) :
    StageOutcome :=
  match df with
  | none => .insufficientData
  | some rows =>
    if rows.length < 5 then .insufficientData
    else
      let recent := tailN 1 ((enrich rows).filter
        (fun e => decide (signal_time < e.2.1.timestamp)))
      if recent.length < 1 then .waiting
      else
        let confirmation_score : ℕ :=
          (recent.map (fun e => longScore e.2.1 e.2.2 signal_price)).sum
        let total_score : ℕ := recent.length * 4
        let confidence : ℚ := (confirmation_score : ℚ) / (total_score : ℚ) * 100
        .scored (decide (60 ≤ confidence)) confidence

/-- `check_short_confirmation`, mirror of the long case. -/
def check_short_confirmation (df : Option (List Row)) (signal_price signal_time : ℚ) :
    StageOutcome :=
  match df with
  | none => .insufficientData
  | some rows =>
    if rows.length < 5 then .insufficientData
    else
      let recent := tailN 1 ((enrich rows).filter
        (fun e => decide (signal_time < e.2.1.timestamp)))
      if recent.length < 1 then .waiting
      else
        let confirmation_score : ℕ :=
          (recent.map (fun e => shortScore e.2.1 e.2.2 signal_price)).sum
        let total_score : ℕ := recent.length * 4
        let confidence : ℚ := (confirmation_score : ℚ) / (total_score : ℚ) * 100
        .scored (decide (60 ≤ confidence)) confidence

/-- `check_confirmation`: dispatch on the (uppercase) signal direction. -/
def check_confirmation (df : Option (List Row)) (direction : String)
    (signal_price signal_time : ℚ) : StageOutcome :=
  if direction = "LONG" then check_long_confirmation df signal_price signal_time
  else if direction = "SHORT" then check_short_confirmation df signal_price signal_time
  else .invalidDirection

/-- Per-candle score of `check_second_confirmation` (max 5): direction
consistency, body ratio above 0.7, volume above 1.5×, close beyond the
signal price, and both wicks below 30% of the candle range. -/
def secondScore (direction : String) (c : Row) (sma : Option ℚ) (signal_price : ℚ) : ℕ :=
  (if direction = "LONG" ∧ c.is_bullish = true then 1
   else if direction = "SHORT" ∧ c.is_bearish = true then 1 else 0) +
  (if fdivGT c.body_size c.total_range (7/10) then 1 else 0) +
  (if volGT c.volume sma (3/2) then 1 else 0) +
  (if direction = "LONG" ∧ signal_price < c.close then 1
   else if direction = "SHORT" ∧ c.close < signal_price then 1 else 0) +
  (if fdivLT c.upper_wick c.total_range (3/10) ∧ fdivLT c.lower_wick c.total_range (3/10)
   then 1 else 0)

/-- `check_second_confirmation`: candles after `signal_time + 5` minutes,
pass threshold 80% of 5. -/
def check_second_confirmation (df : Option (List Row)) (direction : String)
    (signal_price signal_time : ℚ) : StageOutcome :=
  match df with
  | none => .insufficientData
  | some rows =>
    if rows.length < 10 then .insufficientData
    else
      let time_threshold := signal_time + 5
      let recent := tailN 1 ((enrich rows).filter
        (fun e => decide (time_threshold < e.2.1.timestamp)))
      if recent.length < 1 then .waiting
      else
        let confirmation_score : ℕ :=
          (recent.map (fun e => secondScore direction e.2.1 e.2.2 signal_price)).sum
        let total_score : ℕ := recent.length * 5
        let confidence : ℚ := (confirmation_score : ℚ) / (total_score : ℚ) * 100
        .scored (decide (80 ≤ confidence)) confidence

/-- The first five point checks of `check_third_confirmation` (direction,
body above 0.8, volume above 2.0×, price 1% beyond the signal, wicks below
20%); the sixth (trend continuation) needs the previous row and is handled
in `thirdRowScore`. -/
def thirdScoreBase (direction : String) (c : Row) (sma : Option ℚ) (signal_price : ℚ) : ℕ :=
  (if direction = "LONG" ∧ c.is_bullish = true then 1
   else if direction = "SHORT" ∧ c.is_bearish = true then 1 else 0) +
  (if fdivGT c.body_size c.total_range (8/10) then 1 else 0) +
  (if volGT c.volume sma 2 then 1 else 0) +
  (if direction = "LONG" ∧ signal_price * (101/100) < c.close then 1
   else if direction = "SHORT" ∧ c.close < signal_price * (99/100) then 1 else 0) +
  (if fdivLT c.upper_wick c.total_range (2/10) ∧ fdivLT c.lower_wick c.total_range (2/10)
   then 1 else 0)

/-- The trend-continuation point shared by the third and fourth blocks:
close above (resp. below) the previous candle's close scaled by `factor`. -/
def trendPoint (direction : String) (factor : ℚ) (c prev : Row) : ℕ :=
  if direction = "LONG" ∧ prev.close * factor < c.close then 1
  else if direction = "SHORT" ∧ c.close < prev.close * (2 - factor) then 1 else 0

/-- One row of the third block's loop.  `iterrows` yields the row's original
positional label `e.1`; the source then evaluates
`recent_candles.iloc[label - 1]`, an out-of-bounds positional lookup
whenever `label - 1` is not an index of the (length-one) filtered frame —
the raised `IndexError` is caught by the block's handler (`none`). -/
def thirdRowScore (recent : List (ℕ × Row × Option ℚ)) (direction : String)
    (signal_price : ℚ) (e : ℕ × Row × Option ℚ) : Option ℕ :=
  let base := thirdScoreBase direction e.2.1 e.2.2 signal_price
  if 0 < e.1 then
    match recent.get? (e.1 - 1) with
    | some prev => some (base + trendPoint direction 1 e.2.1 prev.2.1)
    | none => none
  else some (base + 1)

/-- `check_third_confirmation`: candles after `signal_time + 10` minutes,
pass threshold 85% of 6; an `IndexError` in the trend check yields the
caught-exception `(False, 0, …)` result. -/
def check_third_confirmation (df : Option (List Row)) (direction : String)
    (signal_price signal_time : ℚ) : StageOutcome :=
  match df with
  | none => .insufficientData
  | some rows =>
    if rows.length < 15 then .insufficientData
    else
      let time_threshold := signal_time + 10
      let recent := tailN 1 ((enrich rows).filter
        (fun e => decide (time_threshold < e.2.1.timestamp)))
      if recent.length < 1 then .waiting
      else
        match recent.mapM (thirdRowScore recent direction signal_price) with
        | none => .errored
        | some scores =>
          let confirmation_score : ℕ := scores.sum
          let total_score : ℕ := recent.length * 6
          let confidence : ℚ := (confirmation_score : ℚ) / (total_score : ℚ) * 100
          .scored (decide (85 ≤ confidence)) confidence

/-- The first five point checks of `check_fourth_confirmation` (direction,
body above 0.9, volume above 3.0×, price 2% beyond the signal, wicks below
15%). -/
def fourthScoreBase (direction : String) (c : Row) (sma : Option ℚ) (signal_price : ℚ) : ℕ :=
  (if direction = "LONG" ∧ c.is_bullish = true then 1
   else if direction = "SHORT" ∧ c.is_bearish = true then 1 else 0) +
  (if fdivGT c.body_size c.total_range (9/10) then 1 else 0) +
  (if volGT c.volume sma 3 then 1 else 0) +
  (if direction = "LONG" ∧ signal_price * (102/100) < c.close then 1
   else if direction = "SHORT" ∧ c.close < signal_price * (98/100) then 1 else 0) +
  (if fdivLT c.upper_wick c.total_range (15/100) ∧ fdivLT c.lower_wick c.total_range (15/100)
   then 1 else 0)

/-- The fourth block's reversal check: at most one opposite-coloured candle
among the last five candles after the signal time. -/
def reversalPoint (rows : List Row) (direction : String) (signal_time : ℚ) : ℕ :=
  let last5 := tailN 5 (rows.filter (fun r => decide (signal_time < r.timestamp)))
  if direction = "LONG" then
    if (last5.filter Row.is_bearish).length ≤ 1 then 1 else 0
  else if direction = "SHORT" then
    if (last5.filter Row.is_bullish).length ≤ 1 then 1 else 0
  else 0

/-- One row of the fourth block's loop; same positional-label trend lookup
(and potential `IndexError`) as the third block, with the stronger 0.5%
continuation requirement, plus the reversal check. -/
def fourthRowScore (recent : List (ℕ × Row × Option ℚ)) (rows : List Row)
    (direction : String) (signal_price signal_time : ℚ)
    (e : ℕ × Row × Option ℚ) : Option ℕ :=
  let base := fourthScoreBase direction e.2.1 e.2.2 signal_price
      + reversalPoint rows direction signal_time
  if 0 < e.1 then
    match recent.get? (e.1 - 1) with
    | some prev => some (base + trendPoint direction (1005/1000) e.2.1 prev.2.1)
    | none => none
  else some (base + 1)

/-- `check_fourth_confirmation`: candles after `signal_time + 15` minutes,
pass threshold 90% of 7. -/
def check_fourth_confirmation (df : Option (List Row)) (direction : String)
    (signal_price signal_time : ℚ) : StageOutcome :=
  match df with
  | none => .insufficientData
  | some rows =>
    if rows.length < 20 then .insufficientData
    else
      let time_threshold := signal_time + 15
      let recent := tailN 1 ((enrich rows).filter
        (fun e => decide (time_threshold < e.2.1.timestamp)))
      if recent.length < 1 then .waiting
      else
        match recent.mapM (fourthRowScore recent rows direction signal_price signal_time) with
        | none => .errored
        | some scores =>
          let confirmation_score : ℕ := scores.sum
          let total_score : ℕ := recent.length * 7
          let confidence : ℚ := (confirmation_score : ℚ) / (total_score : ℚ) * 100
          .scored (decide (90 ≤ confidence)) confidence

/-- An entry of `ConfirmationCandleSystem.confirmation_cache` (the fields the
pending-confirmation loop reads; the `last_check`/`confirmed`/`confidence`
bookkeeping fields written by `update_confirmation_cache` are never read). -/
structure PendingData where
  symbol : String
  direction : String
  signal_price : ℚ
  signal_time : ℚ
deriving DecidableEq

/-- A signal dictionary on `dashboard.active_alerts`, i.e. a
ConfirmationRecord: `store_signal_for_confirmation` creates it with status
PENDING and `check_pending_confirmations` later writes the terminal
CONFIRMED/REJECTED verdict into it.  The `confirmation_confidence` key is
absent until the record is checked; it is modelled as `0` until then. -/
structure Alert where
  symbol : String
  direction : String
  price : ℚ
  timestamp : ℚ
  confirmation_status : String
  confirmation_confidence : ℚ
  confirmation_checked : Bool
deriving DecidableEq

/-- The cache key `f"{symbol}_{direction}_{signal_time}"`, modelled as the
triple of its components. -/
def cacheKey (symbol direction : String) (signal_time : ℚ) : String × String × ℚ :=
  (symbol, direction, signal_time)

/-- Python dict assignment `m[k] = v`: overwrite in place if the key exists,
otherwise append (insertion order preserved). -/
def dictInsert {κ α : Type} [DecidableEq κ] (m : List (κ × α)) (k : κ) (v : α) :
    List (κ × α) :=
  if m.any (fun e => decide (e.1 = k)) then
    m.map (fun e => if e.1 = k then (k, v) else e)
  else m ++ [(k, v)]

/-- `update_confirmation_cache(symbol, direction, signal_price, signal_time)`. -/
def update_confirmation_cache (cache : List ((String × String × ℚ) × PendingData))
    (symbol direction : String) (signal_price signal_time : ℚ) :
    List ((String × String × ℚ) × PendingData) :=
  dictInsert cache (cacheKey symbol direction signal_time)
    ⟨symbol, direction, signal_price, signal_time⟩

/-- `get_pending_confirmations()`: every cached signal at least 25 minutes
old (`now` in minutes), in cache order. -/
def get_pending_confirmations (cache : List ((String × String × ℚ) × PendingData))
    (now : ℚ) : List PendingData :=
  (cache.map (fun e => e.2)).filter (fun d => decide (25 ≤ now - d.signal_time))

/-- The alert-matching test of `check_pending_confirmations`: same symbol,
direction and timestamp as the pending cache entry. -/
def matchesAlert (a : Alert) (d : PendingData) : Bool :=
  a.symbol == d.symbol && a.direction == d.direction &&
    decide (a.timestamp = d.signal_time)

/-- The in-place update of a matched alert: all four confirmations must pass
(`fully_confirmed`), the combined confidence is the arithmetic mean of the
four stage confidences, and the record is marked checked. -/
def applyUpdate (a : Alert) (r1 r2 r3 r4 : Bool × ℚ) : Alert :=
  let fully_confirmed := r1.1 && r2.1 && r3.1 && r4.1
  { a with
    confirmation_status := if fully_confirmed then "CONFIRMED" else "REJECTED"
    confirmation_confidence := (r1.2 + r2.2 + r3.2 + r4.2) / 4
    confirmation_checked := true }

/-- The four confirmation blocks evaluated on one pending signal; `fetch`
stands for `get_confirmation_data` (one deterministic fetch per tick). -/
def evalStages (fetch : String → Option (List Row)) (d : PendingData) :
    (Bool × ℚ) × (Bool × ℚ) × (Bool × ℚ) × (Bool × ℚ) :=
  ((check_confirmation (fetch d.symbol) d.direction d.signal_price d.signal_time).pair,
   (check_second_confirmation (fetch d.symbol) d.direction d.signal_price d.signal_time).pair,
   (check_third_confirmation (fetch d.symbol) d.direction d.signal_price d.signal_time).pair,
   (check_fourth_confirmation (fetch d.symbol) d.direction d.signal_price d.signal_time).pair)

/-- The inner `for alert in active_alerts: … break` loop: update the first
alert matching the pending entry, leave all others untouched. -/
def updateFirstMatch (alerts : List Alert) (d : PendingData)
    (r : (Bool × ℚ) × (Bool × ℚ) × (Bool × ℚ) × (Bool × ℚ)) : List Alert :=
  match alerts with
  | [] => []
  | a :: rest =>
    if matchesAlert a d then applyUpdate a r.1 r.2.1 r.2.2.1 r.2.2.2 :: rest
    else a :: updateFirstMatch rest d r

/-- `check_pending_confirmations()`: for every pending (≥25-minute-old)
cached signal, run all four confirmation blocks and write the terminal
verdict into the matching active alert. -/
def check_pending_confirmations (fetch : String → Option (List Row))
    (cache : List ((String × String × ℚ) × PendingData)) (now : ℚ)
    (alerts : List Alert) : List Alert :=
  (get_pending_confirmations cache now).foldl
    (fun as d => updateFirstMatch as d (evalStages fetch d)) alerts

/-- `check_symbol_cooldown(symbol)`: `(in_cooldown, minutes_remaining)`;
the `symbol_signal_history` dict is modelled as a partial map. -/
def check_symbol_cooldown (history : String → Option ℚ) (symbol : String) (now : ℚ) :
    Bool × ℚ :=
  match history symbol with
  | some last_signal_time =>
    if now - last_signal_time < 30 then (true, 30 - (now - last_signal_time))
    else (false, 0)
  | none => (false, 0)

/-- `update_symbol_signal_history(symbol)`: overwrite the symbol's
last-signal time with the current time. -/
def update_symbol_signal_history (history : String → Option ℚ) (symbol : String)
    (now : ℚ) : String → Option ℚ :=
  fun s => if s = symbol then some now else history s

/-- A fired signal as handed to `store_signal_for_confirmation`. -/
structure Signal where
  symbol : String
  direction : String
  price : ℚ
  timestamp : ℚ

/-- The confirmation-related state mutated by the dashboard's alert system. -/
structure DashState where
  history : String → Option ℚ
  cache : List ((String × String × ℚ) × PendingData)
  active_alerts : List Alert

/-- The new PENDING alert appended by `store_signal_for_confirmation`. -/
def pendingAlertOfSignal (s : Signal) : Alert :=
  { symbol := s.symbol, direction := s.direction, price := s.price,
    timestamp := s.timestamp, confirmation_status := "PENDING",
    confirmation_confidence := 0, confirmation_checked := false }

/-- Append an alert, then keep only the last 10 (`active_alerts[-10:]`). -/
def appendCapped (alerts : List Alert) (a : Alert) : List Alert :=
  let as := alerts ++ [a]
  if 10 < as.length then tailN 10 as else as

/-- `store_signal_for_confirmation(signal)`: drop the signal entirely if the
symbol is in cooldown; otherwise record the signal time, create the cache
entry and append the PENDING alert. -/
def store_signal_for_confirmation (st : DashState) (s : Signal) (now : ℚ) : DashState :=
  let cd := check_symbol_cooldown st.history s.symbol now
  if cd.1 then st
  else
    { history := update_symbol_signal_history st.history s.symbol now
      cache := update_confirmation_cache st.cache s.symbol s.direction s.price s.timestamp
      active_alerts := appendCapped st.active_alerts (pendingAlertOfSignal s) }

end Confirm

/-- One OHLCV candle of an analysis DataFrame (the timestamp column is not
consulted by any of the scanner's numeric routines and is omitted). -/
structure Candle where
  opn : ℚ
  high : ℚ
  low : ℚ
  close : ℚ
  volume : ℚ
deriving DecidableEq

/-- `FVG_THRESHOLD`: 0.5% minimum gap size. -/
def FVG_THRESHOLD : ℚ := 5/1000

/-- `FVG_PROXIMITY`: 2% proximity of the current price to the gap centre. -/
def FVG_PROXIMITY : ℚ := 2/100

/-- `FVG_VOLUME_CONFIRM`: volume-confirmation ratio 1.5. -/
def FVG_VOLUME_CONFIRM : ℚ := 3/2

/-- `FVG_MAX_AGE`: gaps older than 50 candles are dropped from the result. -/
def FVG_MAX_AGE : ℕ := 50

/-- A detected fair-value-gap zone (the dictionary built in
`detect_fair_value_gaps`). -/
structure FVGZone where
  type : String
  gap_low : ℚ
  gap_high : ℚ
  gap_center : ℚ
  gap_size : ℚ
  strength : ℚ
  volume_confirmed : Bool
  volume_strength : ℚ
  age : ℕ
  near_price : Bool
  proximity_ratio : ℚ
  formation_index : ℕ
  status : String
deriving DecidableEq, Inhabited

/-- `_is_gap_filled`'s per-candle test: the candle trades through the whole
gap, or its overlap with the gap exceeds 70% of the gap range (strictly). -/
def gapFillHit (gap_low gap_high : ℚ) (c : Candle) : Bool :=
  (decide (c.low ≤ gap_low) && decide (gap_high ≤ c.high)) ||
    decide ((gap_high - gap_low) * (7/10) < min c.high gap_high - max c.low gap_low)

/-- `_is_gap_filled(df, gap_index, gap_low, gap_high)`: scan every candle
after the gap's formation window. -/
def is_gap_filled (df : List Candle) (gap_index : ℕ) (gap_low gap_high : ℚ) : Bool :=
  (df.drop (gap_index + 1)).any (gapFillHit gap_low gap_high)

/-- `df['volume'].rolling(20).mean().iloc[i-1]` for `i ≥ 20`: the mean of
the 20 volumes at positions `i-20 … i-1`. -/
def rollingVolMean20 (df : List Candle) (i : ℕ) : ℚ :=
  ((((df.drop (i - 20)).take 20).map Candle.volume).sum) / 20

/-- Assembly of one FVG-zone dictionary: proximity flag, strength scoring
(base `min(gap_size*100, 10)`, ×1.5 on volume confirmation, ×1.3 near the
current price, capped at 15) and fill status. -/
def mkFVG (typ : String) (gap_low gap_high gap_size volume_strength : ℚ)
    (volume_confirmed : Bool) (age : ℕ) (gap_center current_price : ℚ)
    (formation_index : ℕ) (filled : Bool) : FVGZone :=
  let proximity_ratio := |current_price - gap_center| / gap_center
  let near_gap := decide (proximity_ratio < FVG_PROXIMITY)
  let strength0 := min (gap_size * 100) 10
  let strength1 := if volume_confirmed then strength0 * (3/2) else strength0
  let strength2 := if near_gap then strength1 * (13/10) else strength1
  { type := typ, gap_low := gap_low, gap_high := gap_high, gap_center := gap_center,
    gap_size := gap_size, strength := min strength2 15,
    volume_confirmed := volume_confirmed, volume_strength := volume_strength,
    age := age, near_price := near_gap, proximity_ratio := proximity_ratio,
    formation_index := formation_index,
    status := if filled then "FILLED" else "UNFILLED" }

/-- The close of the last candle, `df.iloc[-1]['close']` (junk value `0` on
an empty frame, which the caller's length guard excludes). -/
def lastClose (df : List Candle) : ℚ :=
  (df.getLast?).elim 0 Candle.close

/-- One iteration of the 3-candle loop of `detect_fair_value_gaps` at index
`i` (`c1 = df[i-2]`, `c2 = df[i-1]`, `c3 = df[i]`): `none` when the window
is skipped — non-positive checked values, no qualifying gap, or the
`ZeroDivisionError` (caught, `continue`) of a zero 20-candle volume mean.
The `volume_strength` falls back to `1.0` for `i < 20`, where the rolling
mean is still NaN. -/
def fvgWindow (current_price : ℚ) (df : List Candle) (i : ℕ) : Option FVGZone :=
  match df.get? (i - 2), df.get? (i - 1), df.get? i with
  | some c1, some c2, some c3 =>
    if c1.high ≤ 0 ∨ c1.low ≤ 0 ∨ c2.high ≤ 0 ∨ c2.low ≤ 0 ∨ c3.high ≤ 0 ∨
        c3.low ≤ 0 ∨ c2.volume ≤ 0 then none
    else if c1.high < c3.low then
      let gap_size := (c3.low - c1.high) / c1.high
      if FVG_THRESHOLD < gap_size then
        if 20 ≤ i ∧ rollingVolMean20 df i = 0 then none
        else
          let volume_strength := if 20 ≤ i then c2.volume / rollingVolMean20 df i else 1
          some (mkFVG "BULLISH_FVG" c1.high c3.low gap_size volume_strength
            (decide (FVG_VOLUME_CONFIRM < volume_strength)) (df.length - i)
            ((c1.high + c3.low) / 2) current_price (i - 1)
            (is_gap_filled df i c1.high c3.low))
      else none
    else if c3.high < c1.low then
      let gap_size := (c1.low - c3.high) / c1.low
      if FVG_THRESHOLD < gap_size then
        if 20 ≤ i ∧ rollingVolMean20 df i = 0 then none
        else
          let volume_strength := if 20 ≤ i then c2.volume / rollingVolMean20 df i else 1
          some (mkFVG "BEARISH_FVG" c3.high c1.low gap_size volume_strength
            (decide (FVG_VOLUME_CONFIRM < volume_strength)) (df.length - i)
            ((c1.low + c3.high) / 2) current_price (i - 1)
            (is_gap_filled df i c3.high c1.low))
      else none
    else none
  | _, _, _ => none

/-- `detect_fair_value_gaps(df)`: run the 3-candle loop over
`i ∈ [2, len(df))`, drop zones older than `FVG_MAX_AGE`, and return the
unfilled zones before the filled ones. -/
def detect_fair_value_gaps (df : List Candle) : List FVGZone :=
  if df.length < 3 then []
  else
    let current_price := lastClose df
    let fvg_zones := (List.range df.length).filterMap
      (fun i => if i < 2 then none else fvgWindow current_price df i)
    let active := fvg_zones.filter (fun z => decide (z.age ≤ FVG_MAX_AGE))
    active.filter (fun z => z.status == "UNFILLED") ++
      active.filter (fun z => z.status == "FILLED")

/-- The spec's wording of the fill rule, for comparison with
`is_gap_filled`: "`status` is FILLED if any later candle's `[low, high]`
overlaps ≥ 70% of the gap range" — the boundary overlap of exactly 70%
counts as filled here. -/
def specGapFilled (df : List Candle) (gap_index : ℕ) (gap_low gap_high : ℚ) : Bool :=
  (df.drop (gap_index + 1)).any (fun c =>
    decide ((gap_high - gap_low) * (7/10) ≤ min c.high gap_high - max c.low gap_low))

/-- A detected chart pattern (the fields of the pattern dictionaries that
the scorer and the per-timeframe analysis consult; the per-pattern price
levels such as targets and invalidation are presentation-only and
omitted). -/
structure PatternZ where
  type : String
  direction : String
  strength : ℚ
  confidence : ℚ
deriving DecidableEq

/-- `PATTERN_TOLERANCE`: 1% height tolerance for pattern matching. -/
def PATTERN_TOLERANCE : ℚ := 1/100

/-- `_find_peaks_troughs(data, 'peaks')`: a point is a peak when it is ≥ all
points within ±3 positions and above 101% of the mean of the whole series.
Returns `(index, value)` pairs. -/
def find_peaks (data : List ℚ) : List (ℕ × ℚ) :=
  let m := data.sum / (data.length : ℚ)
  (List.range data.length).filterMap (fun i =>
    match data.get? i with
    | some v =>
      if 3 ≤ i ∧ i + 3 < data.length then
        if ((List.range 7).all (fun k =>
              let j := i - 3 + k
              j == i || decide ((data.get? j).getD 0 ≤ v))) &&
            decide (m * (101/100) < v) then
          some (i, v)
        else none
      else none
    | none => none)

/-- `_find_peaks_troughs(data, 'troughs')`: mirror of `find_peaks` with ≤
comparisons and the 99%-of-mean threshold. -/
def find_troughs (data : List ℚ) : List (ℕ × ℚ) :=
  let m := data.sum / (data.length : ℚ)
  (List.range data.length).filterMap (fun i =>
    match data.get? i with
    | some v =>
      if 3 ≤ i ∧ i + 3 < data.length then
        if ((List.range 7).all (fun k =>
              let j := i - 3 + k
              j == i || decide (v ≤ (data.get? j).getD 0))) &&
            decide (v < m * (99/100)) then
          some (i, v)
        else none
      else none
    | none => none)

/-- One iteration of the double/triple-top loop of
`_detect_double_triple_patterns` at peak index `i`.  Field division is
total (`x/0 = 0`) where the source would raise on a zero peak value — a
case excluded whenever prices are positive. -/
def doubleTopAt (peaks troughs : List (ℕ × ℚ)) (i : ℕ) : Option PatternZ :=
  match peaks.get? i, peaks.get? (i + 1) with
  | some p1, some p2 =>
    let height_diff := |p1.2 - p2.2| / p1.2
    if height_diff < PATTERN_TOLERANCE then
      let troughs_between := troughs.filter (fun t => p1.1 < t.1 && t.1 < p2.1)
      if troughs_between.length ≠ 0 then
        let trough_val := listMin (troughs_between.map (fun t => t.2))
        let retracement := (p1.2 - trough_val) / p1.2
        if (1/10 : ℚ) < retracement then
          let pattern_type :=
            match peaks.get? (i + 2) with
            | some p3 => if |p1.2 - p3.2| / p1.2 < PATTERN_TOLERANCE then "TRIPLE_TOP"
                         else "DOUBLE_TOP"
            | none => "DOUBLE_TOP"
          some { type := pattern_type, direction := "BEARISH",
                 strength := min ((1 - height_diff + retracement) * 5) 10,
                 confidence := min ((1 - height_diff) * 100) 95 }
        else none
      else none
    else none
  | _, _ => none

/-- One iteration of the double/triple-bottom loop of
`_detect_double_triple_patterns` at trough index `i`. -/
def doubleBottomAt (peaks troughs : List (ℕ × ℚ)) (i : ℕ) : Option PatternZ :=
  match troughs.get? i, troughs.get? (i + 1) with
  | some t1, some t2 =>
    let depth_diff := |t1.2 - t2.2| / t1.2
    if depth_diff < PATTERN_TOLERANCE then
      let peaks_between := peaks.filter (fun p => t1.1 < p.1 && p.1 < t2.1)
      if peaks_between.length ≠ 0 then
        let peak_val := listMax (peaks_between.map (fun p => p.2))
        let retracement := (peak_val - t1.2) / t1.2
        if (1/10 : ℚ) < retracement then
          let pattern_type :=
            match troughs.get? (i + 2) with
            | some t3 => if |t1.2 - t3.2| / t1.2 < PATTERN_TOLERANCE then "TRIPLE_BOTTOM"
                         else "DOUBLE_BOTTOM"
            | none => "DOUBLE_BOTTOM"
          some { type := pattern_type, direction := "BULLISH",
                 strength := min ((1 - depth_diff + retracement) * 5) 10,
                 confidence := min ((1 - depth_diff) * 100) 95 }
        else none
      else none
    else none
  | _, _ => none

/-- `_detect_double_triple_patterns(df)`: tops first, then bottoms. -/
def detect_double_triple_patterns (df : List Candle) : List PatternZ :=
  let peaks := find_peaks (df.map Candle.high)
  let troughs := find_troughs (df.map Candle.low)
  (List.range (peaks.length - 1)).filterMap (doubleTopAt peaks troughs) ++
    (List.range (troughs.length - 1)).filterMap (doubleBottomAt peaks troughs)

/-- One iteration of `_detect_head_shoulders` over three consecutive
peaks. -/
def headShouldersAt (peaks : List (ℕ × ℚ)) (i : ℕ) : Option PatternZ :=
  match peaks.get? i, peaks.get? (i + 1), peaks.get? (i + 2) with
  | some left_shoulder, some head, some right_shoulder =>
    if left_shoulder.2 < head.2 ∧ right_shoulder.2 < head.2 then
      let shoulder_diff := |left_shoulder.2 - right_shoulder.2| / left_shoulder.2
      if shoulder_diff < PATTERN_TOLERANCE * 2 then
        some { type := "HEAD_AND_SHOULDERS", direction := "BEARISH",
               strength := min ((1 - shoulder_diff + 1/2) * 5) 10,
               confidence := min ((1 - shoulder_diff) * 80) 90 }
      else none
    else none
  | _, _, _ => none

/-- `_detect_head_shoulders(df)`. -/
def detect_head_shoulders (df : List Candle) : List PatternZ :=
  let peaks := find_peaks (df.map Candle.high)
  if peaks.length < 3 then []
  else (List.range (peaks.length - 2)).filterMap (headShouldersAt peaks)

/-- One iteration of the flag/pennant loop of `_detect_flag_pennant` at
close index `i`: a ≥5% directional move over the previous 10 closes
followed by a ≤3% consolidation over closes `i … i+4`. -/
def flagAt (closes : List ℚ) (i : ℕ) : Option PatternZ :=
  if 10 ≤ i ∧ i < closes.length - 5 then
    let flagpole_start := (closes.get? (i - 10)).getD 0
    let flagpole_end := (closes.get? i).getD 0
    let flagpole_move := (flagpole_end - flagpole_start) / flagpole_start
    if (5/100 : ℚ) < |flagpole_move| then
      let consolidation := (closes.drop i).take 5
      let consolidation_range :=
        (listMax consolidation - listMin consolidation) / listMin consolidation
      if consolidation_range < (3/100 : ℚ) then
        some { type := if 0 < flagpole_move then "BULL_FLAG" else "BEAR_FLAG",
               direction := if 0 < flagpole_move then "BULLISH" else "BEARISH",
               strength := min (|flagpole_move| * 50) 10,
               confidence := min ((1 - consolidation_range) * 70) 85 }
      else none
    else none
  else none

/-- `_detect_flag_pennant(df)`: the loop runs over
`i ∈ [10, len(closes) - 5)`; fewer than 15 closes means no patterns. -/
def detect_flag_pennant (df : List Candle) : List PatternZ :=
  let closes := df.map Candle.close
  if closes.length < 15 then []
  else (List.range closes.length).filterMap (flagAt closes)

/-- `detect_pattern_formations(df)`: on at least 20 candles, run the three
pattern detectors on the last 50 candles. -/
def detect_pattern_formations (df : List Candle) : List PatternZ :=
  if df.length < 20 then []
  else
    let recent := tailN 50 df
    detect_double_triple_patterns recent ++ detect_head_shoulders recent ++
      detect_flag_pennant recent

/-- `TIMEFRAME_WEIGHTS`: the default four-timeframe importance map. -/
def TIMEFRAME_WEIGHTS : List (String × ℚ) :=
  [("1d", 35/100), ("4h", 30/100), ("1h", 25/100), ("15m", 10/100)]

/-- `TIMEFRAME_WEIGHTS.get(timeframe, 0.33)`. -/
def weightFor (timeframe : String) : ℚ :=
  ((TIMEFRAME_WEIGHTS.find? (fun e => e.1 == timeframe)).map (fun e => e.2)).getD (33/100)

/-- `MIN_TIMEFRAMES_AGREE`. -/
def MIN_TIMEFRAMES_AGREE : ℕ := 2

/-- `STRONG_CONFLUENCE_THRESHOLD`. -/
def STRONG_CONFLUENCE_THRESHOLD : ℚ := 8/10

/-- A per-timeframe verdict, i.e. the `dominant_direction` and
`signal_strength` fields of `_analyze_single_timeframe`'s result that the
confluence engine consumes. -/
structure TFAnalysis where
  dominant_direction : String
  signal_strength : ℚ
deriving DecidableEq

/-- An entry of the `strong_signals` list of a confluence analysis. -/
structure StrongSignal where
  type : String
  direction : String
  score : ℚ
  agreeing_timeframes : ℕ
deriving DecidableEq

/-- The result dictionary of `analyze_timeframe_confluence` (fields the
scorer and the claims consult). -/
structure ConfluenceAnalysis where
  timeframes_analyzed : List String
  confluence_score : ℚ
  agreement_count : ℕ
  dominant_direction : String
  strong_signals : List StrongSignal
  conflicting_signals : List String
deriving DecidableEq

/-- The dominant-direction choice of `analyze_timeframe_confluence`: the
direction whose ratio strictly beats both others, with its ratio as the
confluence score (NEUTRAL and the neutral ratio on any tie). -/
def dominantChoice (bull_ratio bear_ratio neutral_ratio : ℚ) : String × ℚ :=
  if bear_ratio < bull_ratio ∧ neutral_ratio < bull_ratio then ("BULLISH", bull_ratio)
  else if bull_ratio < bear_ratio ∧ neutral_ratio < bear_ratio then ("BEARISH", bear_ratio)
  else ("NEUTRAL", neutral_ratio)

/-- `analyze_timeframe_confluence(symbol, timeframe_data)`, parameterised by
the per-timeframe verdicts that `_analyze_single_timeframe` produces for
each timeframe of `timeframe_data`: weighted direction buckets, dominant
direction, confluence score (the dominant bucket's share of the total
weighted mass), agreement count, strong signals and conflicts.  A
non-positive total weight leaves the initial neutral result. -/
def analyze_timeframe_confluence (tfResults : List (String × TFAnalysis)) :
    ConfluenceAnalysis :=
  let wv := fun (e : String × TFAnalysis) => weightFor e.1 * e.2.signal_strength
  let bullish_weight :=
    ((tfResults.filter (fun e => e.2.dominant_direction == "BULLISH")).map wv).sum
  let bearish_weight :=
    ((tfResults.filter (fun e => e.2.dominant_direction == "BEARISH")).map wv).sum
  let neutral_weight :=
    ((tfResults.filter (fun e => !(e.2.dominant_direction == "BULLISH") &&
      !(e.2.dominant_direction == "BEARISH"))).map wv).sum
  let total_weight := bullish_weight + bearish_weight + neutral_weight
  if 0 < total_weight then
    let bull_ratio := bullish_weight / total_weight
    let bear_ratio := bearish_weight / total_weight
    let neutral_ratio := neutral_weight / total_weight
    let dom := dominantChoice bull_ratio bear_ratio neutral_ratio
    let agreement_count :=
      (tfResults.filter (fun e => e.2.dominant_direction == dom.1)).length
    { timeframes_analyzed := tfResults.map (fun e => e.1)
      confluence_score := dom.2
      agreement_count := agreement_count
      dominant_direction := dom.1
      strong_signals :=
        if STRONG_CONFLUENCE_THRESHOLD ≤ dom.2 then
          [{ type := "STRONG_CONFLUENCE", direction := dom.1, score := dom.2,
             agreeing_timeframes := agreement_count }]
        else []
      conflicting_signals :=
        (tfResults.filter (fun e => !(e.2.dominant_direction == dom.1) &&
          decide ((3/10 : ℚ) < e.2.signal_strength))).map (fun e => e.1) }
  else
    { timeframes_analyzed := tfResults.map (fun e => e.1)
      confluence_score := 0, agreement_count := 0,
      dominant_direction := "NEUTRAL", strong_signals := [],
      conflicting_signals := [] }

/-- The trendline-analysis result consumed by the scorer. -/
structure TrendlineRes where
  resistance_level : ℚ
  support_level : ℚ
  resistance_break : Bool
  support_break : Bool
  r_squared_high : ℚ
  r_squared_low : ℚ
deriving DecidableEq

/-- The volume-analysis result consumed by the scorer. -/
structure VolumeRes where
  volume_spike : Bool
  volume_ratio : ℚ
deriving DecidableEq

/-- The analysis dictionary handed to `score_opportunity` (`trendlines` is
`None` when fewer than 20 candles or a degenerate regression;
`multi_timeframe` is absent in the single-timeframe fallback). -/
structure Analysis where
  fvg_zones : List FVGZone
  trendlines : Option TrendlineRes
  volume : VolumeRes
  patterns : List PatternZ
  price_data : List ℚ
  multi_timeframe : Option ConfluenceAnalysis

/-- The `score_breakdown` dictionary (components rounded to one decimal). -/
structure ScoreBreakdown where
  fvg : ℚ
  trendlines : ℚ
  patterns : ℚ
  volume : ℚ
  momentum : ℚ
  confluence : ℚ
deriving DecidableEq

/-- Enhanced FVG component (cap 22): unfilled gaps score `strength × 1.8`,
×1.5 if volume-confirmed, ×2 if near the current price. -/
def fvg_component (a : Analysis) : ℚ :=
  let unfilled := a.fvg_zones.filter (fun z => z.status == "UNFILLED")
  min ((unfilled.map (fun z =>
    z.strength * (18/10) * (if z.volume_confirmed then 3/2 else 1) *
      (if z.near_price then 2 else 1))).sum) 22

/-- Trendline component (cap 18): full marks on a breakout, else the mean
R² scaled to 9. -/
def trendline_component (a : Analysis) : ℚ :=
  min (match a.trendlines with
       | some tl =>
         if tl.resistance_break then 18
         else if tl.support_break then 18
         else ((tl.r_squared_high + tl.r_squared_low) / 2) * 9
       | none => 0) 18

/-- Pattern component (cap 22): confidence-weighted strength of the
patterns above the 70% confidence filter. -/
def pattern_component (a : Analysis) : ℚ :=
  min (((a.patterns.filter (fun p => decide ((70 : ℚ) < p.confidence))).map
    (fun p => p.strength * (18/10) * (p.confidence / 100))).sum) 22

/-- Volume component (cap 12): `volume_ratio × 2.4` on a spike. -/
def volume_component (a : Analysis) : ℚ :=
  if a.volume.volume_spike then min (a.volume.volume_ratio * (24/10)) 12 else 0

/-- Momentum component (cap 8): last-5 vs previous-5 average close change,
scaled by 80. -/
def momentum_component (a : Analysis) : ℚ :=
  if 10 ≤ a.price_data.length then
    let recent_avg := ((tailN 5 a.price_data).sum) / 5
    let previous_avg := (((tailN 10 a.price_data).take 5).sum) / 5
    let momentum := (recent_avg - previous_avg) / previous_avg
    min (|momentum| * 80) 8
  else 0

/-- The active-signal count feeding the single-timeframe confluence
fallback. -/
def signalsCount (a : Analysis) : ℕ :=
  (if 10 < fvg_component a then 1 else 0) +
    (if 10 < trendline_component a then 1 else 0) +
    (if 10 < pattern_component a then 1 else 0) +
    (if 5 < volume_component a then 1 else 0)

/-- Multi-timeframe confluence component (clamped to [0, 18]): base score
9 × confluence strength, agreement and perfect-confluence bonuses, strong
signal bonus, conflict penalty; fallback to the single-timeframe signal
count when no multi-timeframe analysis exists. -/
def confluence_component (a : Analysis) : ℚ :=
  match a.multi_timeframe with
  | some mtf =>
    let total_timeframes := mtf.timeframes_analyzed.length
    let base := mtf.confluence_score * 9
    let withAgree :=
      if MIN_TIMEFRAMES_AGREE ≤ mtf.agreement_count ∧ 2 ≤ total_timeframes then
        let agreement_ratio := (mtf.agreement_count : ℚ) / (total_timeframes : ℚ)
        let b2 := base + agreement_ratio * 9
        if mtf.agreement_count = total_timeframes ∧ 3 ≤ total_timeframes then b2 + 4
        else b2
      else base
    let withStrong :=
      if mtf.strong_signals.length ≠ 0 then
        withAgree + (mtf.strong_signals.length : ℚ) * (5/2)
      else withAgree
    let withConflict :=
      if mtf.conflicting_signals.length ≠ 0 then
        withStrong - (mtf.conflicting_signals.length : ℚ) * (18/10)
      else withStrong
    max 0 (min withConflict 18)
  | none =>
    if 3 ≤ signalsCount a then 10 else if signalsCount a = 2 then 5 else 0

/-- `score_opportunity(analysis)`: the composite total (capped at 100) and
the per-component breakdown stored on the analysis. -/
def score_opportunity (a : Analysis) : ℚ × ScoreBreakdown :=
  let total := fvg_component a + trendline_component a + pattern_component a +
    volume_component a + momentum_component a + confluence_component a
  (min total 100,
   { fvg := round1 (fvg_component a), trendlines := round1 (trendline_component a),
     patterns := round1 (pattern_component a), volume := round1 (volume_component a),
     momentum := round1 (momentum_component a),
     confluence := round1 (confluence_component a) })

/-- A four-candle frame forming one bullish gap `[100, 110]` (between the
first candle's high and the third candle's low) whose fourth candle
`[low, high] = [100, 107]` overlaps exactly 70% of the gap range. -/
def exactFillFrame : List Candle :=
  [⟨100, 100, 99, 100, 1⟩, ⟨100, 105, 99, 100, 1⟩, ⟨111, 112, 110, 111, 1⟩,
   ⟨101, 107, 100, 101, 1⟩]

/-- A 53-candle frame whose only qualifying gap window is `(df[0], df[1],
df[2])` — a 1% bullish gap between `df[0].high = 100` and `df[2].low = 101`
— which is `53 - 2 = 51` candles old, one more than `FVG_MAX_AGE`. -/
def agedGapFrame : List Candle :=
  ⟨100, 100, 99, 100, 1⟩ :: ⟨100, 102, 98, 100, 1⟩ :: ⟨101, 102, 101, 101, 1⟩ ::
    List.replicate 50 ⟨101, 102, 101, 101, 1⟩

/-- A four-candle frame whose bullish gap `[100, 110]` is filled by the
fourth candle, which spans the whole gap. -/
def filledFrame : List Candle :=
  [⟨100, 100, 99, 100, 1⟩, ⟨100, 105, 99, 100, 1⟩, ⟨111, 112, 110, 111, 1⟩,
   ⟨100, 112, 99, 100, 1⟩]

/-- A three-candle frame with one bearish gap: the third candle's high
(100) sits below the first candle's low (110). -/
def bearGapFrame : List Candle :=
  [⟨100, 112, 110, 111, 1⟩, ⟨100, 105, 99, 100, 1⟩, ⟨99, 100, 99, 99, 1⟩]

/-! ### Theorems -/

/-- Claim C1: once all four stage checks of a pending signal have run, the
final decision is `fully_confirmed = stage1 AND stage2 AND stage3 AND
stage4` (terminal status CONFIRMED exactly when all four stages confirmed,
REJECTED otherwise) and `combined_confidence` is the arithmetic mean of the
four stage confidences; in particular, stage confidences `[100, 80, 50, 90]`
— with stage 3 below its 85% pass threshold while stages 1, 2 and 4 meet
their 60%, 80% and 90% thresholds — give combined confidence `80.0` and
final status REJECTED. -/
theorem c1_quadruple_decision (a : Confirm.Alert) (r1 r2 r3 r4 : Bool × ℚ) :
    ((Confirm.applyUpdate a r1 r2 r3 r4).confirmation_confidence =
      (r1.2 + r2.2 + r3.2 + r4.2) / 4)
    ∧ ((Confirm.applyUpdate a r1 r2 r3 r4).confirmation_status = "CONFIRMED" ↔
        (r1.1 = true ∧ r2.1 = true ∧ r3.1 = true ∧ r4.1 = true))
    ∧ ((Confirm.applyUpdate a r1 r2 r3 r4).confirmation_status = "REJECTED" ↔
        ¬(r1.1 = true ∧ r2.1 = true ∧ r3.1 = true ∧ r4.1 = true))
    ∧ (Confirm.applyUpdate a (decide ((60:ℚ) ≤ 100), 100) (decide ((80:ℚ) ≤ 80), 80)
        (decide ((85:ℚ) ≤ 50), 50)
        (decide ((90:ℚ) ≤ 90), 90)).confirmation_confidence = 80
    ∧ (Confirm.applyUpdate a (decide ((60:ℚ) ≤ 100), 100) (decide ((80:ℚ) ≤ 80), 80)
        (decide ((85:ℚ) ≤ 50), 50)
        (decide ((90:ℚ) ≤ 90), 90)).confirmation_status = "REJECTED" := by
  refine ⟨rfl, ?_, ?_, ?_, ?_⟩
  · cases hb : (r1.1 && r2.1 && r3.1 && r4.1) with
    | true =>
      have hs : (Confirm.applyUpdate a r1 r2 r3 r4).confirmation_status = "CONFIRMED" := by
        simp [Confirm.applyUpdate, hb]
      rw [hs]
      simp only [Bool.and_eq_true] at hb
      exact ⟨fun _ => ⟨hb.1.1.1, hb.1.1.2, hb.1.2, hb.2⟩, fun _ => rfl⟩
    | false =>
      have hs : (Confirm.applyUpdate a r1 r2 r3 r4).confirmation_status = "REJECTED" := by
        simp [Confirm.applyUpdate, hb]
      rw [hs]
      refine ⟨fun h2 => absurd h2 (by decide), fun hall => ?_⟩
      simp [hall.1, hall.2.1, hall.2.2.1, hall.2.2.2] at hb
  · cases hb : (r1.1 && r2.1 && r3.1 && r4.1) with
    | true =>
      have hs : (Confirm.applyUpdate a r1 r2 r3 r4).confirmation_status = "CONFIRMED" := by
        simp [Confirm.applyUpdate, hb]
      rw [hs]
      simp only [Bool.and_eq_true] at hb
      refine ⟨fun h2 => absurd h2 (by decide), fun hn => ?_⟩
      exact absurd ⟨hb.1.1.1, hb.1.1.2, hb.1.2, hb.2⟩ hn
    | false =>
      have hs : (Confirm.applyUpdate a r1 r2 r3 r4).confirmation_status = "REJECTED" := by
        simp [Confirm.applyUpdate, hb]
      rw [hs]
      refine ⟨fun _ hall => ?_, fun _ => rfl⟩
      simp [hall.1, hall.2.1, hall.2.2.1, hall.2.2.2] at hb
  · show ((100 : ℚ) + 80 + 50 + 90) / 4 = 80
    norm_num
  · have h3 : decide ((85:ℚ) ≤ 50) = false := by with_unfolding_all rfl
    simp [Confirm.applyUpdate, h3]

/-- An alert that matches no pending entry is left in place (and unchanged)
by the first-match update loop. -/
theorem updateFirstMatch_get?_of_not_matches (alerts : List Confirm.Alert)
    (d : Confirm.PendingData)
    (r : (Bool × ℚ) × (Bool × ℚ) × (Bool × ℚ) × (Bool × ℚ)) (i : ℕ)
    (a : Confirm.Alert) (hget : alerts.get? i = some a)
    (hm : Confirm.matchesAlert a d = false) :
    (Confirm.updateFirstMatch alerts d r).get? i = some a := by
  induction alerts generalizing i with
  | nil => simp at hget
  | cons b rest ih =>
    cases i with
    | zero =>
      simp only [List.get?_cons_zero, Option.some.injEq] at hget
      subst hget
      rw [Confirm.updateFirstMatch, hm]
      simp
    | succ n =>
      simp only [List.get?_cons_succ] at hget
      rw [Confirm.updateFirstMatch]
      by_cases hb : Confirm.matchesAlert b d = true
      · rw [hb]
        simpa using hget
      · rw [Bool.not_eq_true] at hb
        rw [hb]
        simpa using ih n hget
/-- An alert that matches none of the processed pending entries survives
the whole pending-confirmation fold unchanged. -/
theorem foldl_updateFirstMatch_get? (g : Confirm.PendingData →
      (Bool × ℚ) × (Bool × ℚ) × (Bool × ℚ) × (Bool × ℚ))
    (pend : List Confirm.PendingData) (alerts : List Confirm.Alert) (i : ℕ)
    (a : Confirm.Alert) (hget : alerts.get? i = some a)
    (hm : ∀ d ∈ pend, Confirm.matchesAlert a d = false) :
    (pend.foldl (fun as d => Confirm.updateFirstMatch as d (g d)) alerts).get? i
      = some a := by
  induction pend generalizing alerts with
  | nil => simpa using hget
  | cons d rest ih =>
    simp only [List.foldl_cons]
    exact ih _ (updateFirstMatch_get?_of_not_matches alerts d (g d) i a hget
      (hm d (List.mem_cons_self d rest))) (fun e he => hm e (List.mem_cons_of_mem d he))

/-- Claim C2: a stored signal's ConfirmationRecord never leaves the PENDING
state before at least 25 minutes have elapsed since the signal's timestamp:
the pending-confirmations query returns only cache entries at least 25
minutes old, and a run of `check_pending_confirmations` leaves every active
alert younger than 25 minutes exactly as it was (in particular still
PENDING), because only alerts matching a ≥25-minute-old pending entry are
ever given a terminal verdict. -/
theorem c2_no_terminal_before_25min
    (cache : List ((String × String × ℚ) × Confirm.PendingData)) (now : ℚ) :
    (∀ d ∈ Confirm.get_pending_confirmations cache now, 25 ≤ now - d.signal_time)
    ∧ ∀ (fetch : String → Option (List Confirm.Row))
        (alerts : List Confirm.Alert) (i : ℕ) (a : Confirm.Alert),
        alerts.get? i = some a → now - a.timestamp < 25 →
        (Confirm.check_pending_confirmations fetch cache now alerts).get? i
          = some a := by
  have hpend : ∀ d ∈ Confirm.get_pending_confirmations cache now,
      25 ≤ now - d.signal_time := by
    intro d hd
    simp only [Confirm.get_pending_confirmations, List.mem_filter,
      decide_eq_true_eq] at hd
    exact hd.2
  refine ⟨hpend, ?_⟩
  intro fetch alerts i a hget hyoung
  rw [Confirm.check_pending_confirmations]
  refine foldl_updateFirstMatch_get? _ _ _ _ _ hget ?_
  intro d hd
  by_contra hm
  rw [Bool.not_eq_false, Confirm.matchesAlert] at hm
  simp only [Bool.and_eq_true, beq_iff_eq, decide_eq_true_eq] at hm
  have := hpend d hd
  rw [← hm.2] at this
  linarith

/-- Witness for C2: a cache holding one 30-minute-old entry and a 10-minute
old PENDING alert; the query returns the old entry and the young alert is
untouched by the check. -/
theorem c2_no_terminal_before_25min_witness :
    (25 : ℚ) ≤ 30 - (⟨"BTC/USDT", "LONG", 100, 0⟩ : Confirm.PendingData).signal_time
    ∧ (Confirm.check_pending_confirmations (fun _ => none)
        [(("BTC/USDT", "LONG", (0 : ℚ)), ⟨"BTC/USDT", "LONG", 100, 0⟩)] 30
        [⟨"ETH/USDT", "LONG", 50, 20, "PENDING", 0, false⟩]).get? 0
      = some ⟨"ETH/USDT", "LONG", 50, 20, "PENDING", 0, false⟩ := by
  have h := c2_no_terminal_before_25min
    [(("BTC/USDT", "LONG", (0 : ℚ)), ⟨"BTC/USDT", "LONG", 100, 0⟩)] 30
  refine ⟨?_, ?_⟩
  · exact h.1 ⟨"BTC/USDT", "LONG", 100, 0⟩ (by
      simp [Confirm.get_pending_confirmations]
      norm_num)
  · exact h.2 (fun _ => none) [⟨"ETH/USDT", "LONG", 50, 20, "PENDING", 0, false⟩]
      0 ⟨"ETH/USDT", "LONG", 50, 20, "PENDING", 0, false⟩ rfl (by norm_num)

/-- Dispatching `check_confirmation` on a failed fetch yields the
`(False, 0, …)` pair whatever the direction string is. -/
theorem check_confirmation_none_pair (dir : String) (p t : ℚ) :
    (Confirm.check_confirmation none dir p t).pair = (false, 0) := by
  unfold Confirm.check_confirmation
  split_ifs <;> rfl

/-- Counterexample to claim C4: with a pending record 30 minutes old whose
candle fetch returns no data, every one of the four stage checks returns
the insufficient-data result `(False, 0, "Insufficient data…")` — and
`check_pending_confirmations` folds those insufficient-data results
straight into a terminal REJECTED verdict on the matching alert (status
REJECTED, combined confidence 0, record marked checked), instead of
treating the record as not-yet-decided. -/
theorem c4_counterexample :
    Confirm.check_confirmation none "LONG" 100 0
      = Confirm.StageOutcome.insufficientData
    ∧ Confirm.check_second_confirmation none "LONG" 100 0
      = Confirm.StageOutcome.insufficientData
    ∧ Confirm.check_third_confirmation none "LONG" 100 0
      = Confirm.StageOutcome.insufficientData
    ∧ Confirm.check_fourth_confirmation none "LONG" 100 0
      = Confirm.StageOutcome.insufficientData
    ∧ Confirm.check_pending_confirmations (fun _ => none)
        [(("BTC/USDT", "LONG", (0 : ℚ)), ⟨"BTC/USDT", "LONG", 100, 0⟩)] 30
        [⟨"BTC/USDT", "LONG", 100, 0, "PENDING", 0, false⟩]
      = [⟨"BTC/USDT", "LONG", 100, 0, "REJECTED", 0, true⟩] := by
  refine ⟨rfl, rfl, rfl, rfl, ?_⟩
  with_unfolding_all rfl

/-- Claim C4, amended: a pending record younger than 25 minutes is not
evaluated at all (it is absent from the pending-confirmations query and so
re-checked later); but once the single 25-minute gate has passed, a stage
whose required data is unavailable returns `(False, 0)` and that
insufficient-data result IS folded into the terminal verdict like a failed
stage — in particular a record whose candle fetch returns no data is
terminally REJECTED (with combined confidence 0), never CONFIRMED. -/
theorem c4_amended (cache : List ((String × String × ℚ) × Confirm.PendingData))
    (now : ℚ) (d : Confirm.PendingData)
    (fetch : String → Option (List Confirm.Row)) (a : Confirm.Alert) :
    (now - d.signal_time < 25 → d ∉ Confirm.get_pending_confirmations cache now)
    ∧ (fetch d.symbol = none →
        (Confirm.applyUpdate a (Confirm.evalStages fetch d).1
            (Confirm.evalStages fetch d).2.1 (Confirm.evalStages fetch d).2.2.1
            (Confirm.evalStages fetch d).2.2.2).confirmation_status = "REJECTED"
        ∧ (Confirm.applyUpdate a (Confirm.evalStages fetch d).1
            (Confirm.evalStages fetch d).2.1 (Confirm.evalStages fetch d).2.2.1
            (Confirm.evalStages fetch d).2.2.2).confirmation_confidence = 0
        ∧ (Confirm.applyUpdate a (Confirm.evalStages fetch d).1
            (Confirm.evalStages fetch d).2.1 (Confirm.evalStages fetch d).2.2.1
            (Confirm.evalStages fetch d).2.2.2).confirmation_checked = true) := by
  constructor
  · intro hyoung hin
    simp only [Confirm.get_pending_confirmations, List.mem_filter,
      decide_eq_true_eq] at hin
    linarith [hin.2]
  · intro hf
    have e1 : Confirm.evalStages fetch d
        = ((false, 0), (false, 0), (false, 0), (false, 0)) := by
      rw [Confirm.evalStages, hf, check_confirmation_none_pair]
      rfl
    rw [e1]
    refine ⟨by simp [Confirm.applyUpdate], ?_, rfl⟩
    show ((0 : ℚ) + 0 + 0 + 0) / 4 = 0
    norm_num

/-- Witness for C4's amended claim: a 10-minute-old record is absent from
the pending query at minute 10, and a 30-minute-old record with a failed
fetch is terminally REJECTED with confidence 0. -/
theorem c4_amended_witness :
    ((⟨"BTC/USDT", "LONG", 100, 0⟩ : Confirm.PendingData) ∉
      Confirm.get_pending_confirmations
        [(("BTC/USDT", "LONG", (0 : ℚ)), ⟨"BTC/USDT", "LONG", 100, 0⟩)] 10)
    ∧ ((Confirm.applyUpdate ⟨"BTC/USDT", "LONG", 100, 0, "PENDING", 0, false⟩
          (Confirm.evalStages (fun _ => none) ⟨"BTC/USDT", "LONG", 100, 0⟩).1
          (Confirm.evalStages (fun _ => none) ⟨"BTC/USDT", "LONG", 100, 0⟩).2.1
          (Confirm.evalStages (fun _ => none) ⟨"BTC/USDT", "LONG", 100, 0⟩).2.2.1
          (Confirm.evalStages (fun _ => none)
            ⟨"BTC/USDT", "LONG", 100, 0⟩).2.2.2).confirmation_status = "REJECTED"
        ∧ (Confirm.applyUpdate ⟨"BTC/USDT", "LONG", 100, 0, "PENDING", 0, false⟩
          (Confirm.evalStages (fun _ => none) ⟨"BTC/USDT", "LONG", 100, 0⟩).1
          (Confirm.evalStages (fun _ => none) ⟨"BTC/USDT", "LONG", 100, 0⟩).2.1
          (Confirm.evalStages (fun _ => none) ⟨"BTC/USDT", "LONG", 100, 0⟩).2.2.1
          (Confirm.evalStages (fun _ => none)
            ⟨"BTC/USDT", "LONG", 100, 0⟩).2.2.2).confirmation_confidence = 0
        ∧ (Confirm.applyUpdate ⟨"BTC/USDT", "LONG", 100, 0, "PENDING", 0, false⟩
          (Confirm.evalStages (fun _ => none) ⟨"BTC/USDT", "LONG", 100, 0⟩).1
          (Confirm.evalStages (fun _ => none) ⟨"BTC/USDT", "LONG", 100, 0⟩).2.1
          (Confirm.evalStages (fun _ => none) ⟨"BTC/USDT", "LONG", 100, 0⟩).2.2.1
          (Confirm.evalStages (fun _ => none)
            ⟨"BTC/USDT", "LONG", 100, 0⟩).2.2.2).confirmation_checked = true) :=
  ⟨(c4_amended [(("BTC/USDT", "LONG", (0 : ℚ)), ⟨"BTC/USDT", "LONG", 100, 0⟩)] 10
      ⟨"BTC/USDT", "LONG", 100, 0⟩ (fun _ => none)
      ⟨"BTC/USDT", "LONG", 100, 0, "PENDING", 0, false⟩).1 (by norm_num),
   (c4_amended [(("BTC/USDT", "LONG", (0 : ℚ)), ⟨"BTC/USDT", "LONG", 100, 0⟩)] 10
      ⟨"BTC/USDT", "LONG", 100, 0⟩ (fun _ => none)
      ⟨"BTC/USDT", "LONG", 100, 0, "PENDING", 0, false⟩).2 rfl⟩

/-- Claim C3: a second signal for a symbol arriving less than 30 minutes
(the cooldown window) after the last accepted signal for that symbol is
dropped before a ConfirmationRecord is created — `store_signal_for_confirmation`
returns the dashboard state (history, confirmation cache and active alerts)
entirely unchanged, so the second signal never produces a second live
ConfirmationRecord; and on acceptance of a signal the symbol's last-signal
time is overwritten with the current time unconditionally. -/
theorem c3_cooldown_drops_second_signal (st : Confirm.DashState)
    (s1 s2 : Confirm.Signal) (t1 t2 : ℚ)
    (hacc : (Confirm.check_symbol_cooldown st.history s1.symbol t1).1 = false)
    (hsym : s2.symbol = s1.symbol) (hlt : t2 - t1 < 30) :
    ((Confirm.store_signal_for_confirmation st s1 t1).history s1.symbol = some t1)
    ∧ Confirm.store_signal_for_confirmation
        (Confirm.store_signal_for_confirmation st s1 t1) s2 t2 =
      Confirm.store_signal_for_confirmation st s1 t1 := by
  have h1 : (Confirm.store_signal_for_confirmation st s1 t1).history s1.symbol
      = some t1 := by
    simp [Confirm.store_signal_for_confirmation, hacc,
      Confirm.update_symbol_signal_history]
  refine ⟨h1, ?_⟩
  set st1 := Confirm.store_signal_for_confirmation st s1 t1 with hst1
  have hcd : (Confirm.check_symbol_cooldown st1.history s2.symbol t2).1 = true := by
    rw [hsym]
    simp [Confirm.check_symbol_cooldown, h1, hlt]
  rw [Confirm.store_signal_for_confirmation, hcd]
  simp

/-- Witness for C3 at a concrete state: an empty history, a first LONG
signal for BTC/USDT at minute 0 and a second signal for the same symbol at
minute 20. -/
theorem c3_cooldown_drops_second_signal_witness :
    ((Confirm.store_signal_for_confirmation ⟨fun _ => none, [], []⟩
        ⟨"BTC/USDT", "LONG", 100, 0⟩ 0).history "BTC/USDT" = some 0)
    ∧ Confirm.store_signal_for_confirmation
        (Confirm.store_signal_for_confirmation ⟨fun _ => none, [], []⟩
          ⟨"BTC/USDT", "LONG", 100, 0⟩ 0)
        ⟨"BTC/USDT", "SHORT", 99, 20⟩ 20 =
      Confirm.store_signal_for_confirmation ⟨fun _ => none, [], []⟩
        ⟨"BTC/USDT", "LONG", 100, 0⟩ 0 :=
  c3_cooldown_drops_second_signal ⟨fun _ => none, [], []⟩
    ⟨"BTC/USDT", "LONG", 100, 0⟩ ⟨"BTC/USDT", "SHORT", 99, 20⟩ 0 20
    (by with_unfolding_all rfl) rfl (by norm_num)

/-- Every timeframe weight — the four configured ones and the `0.33`
default — is nonnegative. -/
theorem weightFor_nonneg (tf : String) : 0 ≤ weightFor tf := by
  unfold weightFor
  cases hf : TIMEFRAME_WEIGHTS.find? (fun e => e.1 == tf) with
  | none => norm_num
  | some e =>
    have hmem : e ∈ TIMEFRAME_WEIGHTS := List.mem_of_find?_eq_some hf
    simp only [Option.map_some', Option.getD_some]
    fin_cases hmem <;> norm_num

/-- A weighted direction bucket is a sum of nonnegative weighted votes. -/
theorem weightedBucket_nonneg (tfResults : List (String × TFAnalysis))
    (hstr : ∀ e ∈ tfResults, 0 ≤ e.2.signal_strength)
    (p : String × TFAnalysis → Bool) :
    0 ≤ ((tfResults.filter p).map
      (fun e => weightFor e.1 * e.2.signal_strength)).sum := by
  apply List.sum_nonneg
  intro x hx
  obtain ⟨e, he, rfl⟩ := List.mem_map.mp hx
  exact mul_nonneg (weightFor_nonneg e.1) (hstr e (List.mem_of_mem_filter he))

/-- Claim C6: the default four-timeframe weight map (1d: 0.35, 4h: 0.30,
1h: 0.25, 15m: 0.10) sums to 1.0 within 1e-6, and for every set of
timeframe verdicts (with the data model's nonnegative strengths) the
confluence score — the dominant direction bucket's share of the total
weighted mass — lies in [0, 1]. -/
theorem c6_confluence_bounds :
    |((TIMEFRAME_WEIGHTS.map (fun e => e.2)).sum) - 1| ≤ 1/1000000
    ∧ ∀ (tfResults : List (String × TFAnalysis)),
        (∀ e ∈ tfResults, 0 ≤ e.2.signal_strength) →
        0 ≤ (analyze_timeframe_confluence tfResults).confluence_score
        ∧ (analyze_timeframe_confluence tfResults).confluence_score ≤ 1 := by
  constructor
  · norm_num [TIMEFRAME_WEIGHTS]
  · intro tfResults hstr
    have hb := weightedBucket_nonneg tfResults hstr
      (fun e => e.2.dominant_direction == "BULLISH")
    have hbe := weightedBucket_nonneg tfResults hstr
      (fun e => e.2.dominant_direction == "BEARISH")
    have hn := weightedBucket_nonneg tfResults hstr
      (fun e => !(e.2.dominant_direction == "BULLISH") &&
        !(e.2.dominant_direction == "BEARISH"))
    have hcases : ∀ (P : ℚ → Prop) (x y z : ℚ), P x → P y → P z →
        P (dominantChoice x y z).2 := by
      intro P x y z hx hy hz
      unfold dominantChoice
      split_ifs <;> assumption
    simp only [analyze_timeframe_confluence]
    rw [apply_ite ConfluenceAnalysis.confluence_score]
    dsimp only
    split_ifs with ht
    · refine hcases (fun q => 0 ≤ q ∧ q ≤ 1) _ _ _ ?_ ?_ ?_
      · exact ⟨div_nonneg hb (le_of_lt ht), by rw [div_le_one ht]; linarith⟩
      · exact ⟨div_nonneg hbe (le_of_lt ht), by rw [div_le_one ht]; linarith⟩
      · exact ⟨div_nonneg hn (le_of_lt ht), by rw [div_le_one ht]; linarith⟩
    · exact ⟨le_refl 0, by norm_num⟩

/-- Witness for C6 at a concrete verdict set: a bullish 1d verdict of
strength 0.8 and a neutral 1h verdict of strength 0.2. -/
theorem c6_confluence_bounds_witness :
    0 ≤ (analyze_timeframe_confluence
      [("1d", ⟨"BULLISH", 8/10⟩), ("1h", ⟨"NEUTRAL", 2/10⟩)]).confluence_score
    ∧ (analyze_timeframe_confluence
      [("1d", ⟨"BULLISH", 8/10⟩), ("1h", ⟨"NEUTRAL", 2/10⟩)]).confluence_score ≤ 1 :=
  c6_confluence_bounds.2 [("1d", ⟨"BULLISH", 8/10⟩), ("1h", ⟨"NEUTRAL", 2/10⟩)]
    (by
      intro e he
      fin_cases he <;> norm_num)

/-- Rounding to one decimal place never climbs above an integer bound. -/
theorem round1_le_int (x : ℚ) (n : ℤ) (h : x ≤ (n : ℚ)) : round1 x ≤ (n : ℚ) := by
  unfold round1
  rw [div_le_iff₀ (by norm_num : (0:ℚ) < 10)]
  have h1 : round (x * 10) ≤ round ((n : ℚ) * 10) := by
    rw [round_eq, round_eq]
    exact Int.floor_le_floor (by linarith)
  have h2 : round (((n : ℚ)) * 10) = n * 10 := by
    rw [show ((n:ℚ) * 10) = ((n * 10 : ℤ) : ℚ) by push_cast; ring, round_intCast]
  rw [h2] at h1
  exact_mod_cast h1

/-- Rounding to one decimal place preserves nonnegativity. -/
theorem round1_nonneg (x : ℚ) (h : 0 ≤ x) : 0 ≤ round1 x := by
  unfold round1
  apply div_nonneg _ (by norm_num)
  have h1 : round (0 : ℚ) ≤ round (x * 10) := by
    rw [round_eq, round_eq]
    exact Int.floor_le_floor (by linarith)
  rw [show round (0 : ℚ) = ((0 : ℤ) : ℤ) from by norm_num] at h1
  exact_mod_cast h1

/-- The FVG component is within [0, 22] whenever gap strengths are
nonnegative (the detector produces strengths in [0, 15]). -/
theorem fvg_component_bounds (a : Analysis)
    (h : ∀ z ∈ a.fvg_zones, 0 ≤ z.strength) :
    0 ≤ fvg_component a ∧ fvg_component a ≤ 22 := by
  unfold fvg_component
  refine ⟨le_min ?_ (by norm_num), min_le_right _ _⟩
  apply List.sum_nonneg
  intro x hx
  obtain ⟨z, hz, rfl⟩ := List.mem_map.mp hx
  have hs := h z (List.mem_of_mem_filter hz)
  apply mul_nonneg (mul_nonneg (mul_nonneg hs (by norm_num)) ?_) ?_
  · split_ifs <;> norm_num
  · split_ifs <;> norm_num

/-- The trendline component is within [0, 18] whenever the R² values are
nonnegative (true of any real regression). -/
theorem trendline_component_bounds (a : Analysis)
    (h : ∀ tl, a.trendlines = some tl → 0 ≤ tl.r_squared_high ∧ 0 ≤ tl.r_squared_low) :
    0 ≤ trendline_component a ∧ trendline_component a ≤ 18 := by
  unfold trendline_component
  refine ⟨le_min ?_ (by norm_num), min_le_right _ _⟩
  cases htl : a.trendlines with
  | none => norm_num
  | some tl =>
    have hr := h tl htl
    dsimp only
    split_ifs <;> [norm_num; norm_num; nlinarith [hr.1, hr.2]]

/-- The pattern component is within [0, 22] whenever pattern strengths are
nonnegative (the detectors produce strengths below 10). -/
theorem pattern_component_bounds (a : Analysis)
    (h : ∀ p ∈ a.patterns, 0 ≤ p.strength) :
    0 ≤ pattern_component a ∧ pattern_component a ≤ 22 := by
  unfold pattern_component
  refine ⟨le_min ?_ (by norm_num), min_le_right _ _⟩
  apply List.sum_nonneg
  intro x hx
  obtain ⟨p, hp, rfl⟩ := List.mem_map.mp hx
  have hs := h p (List.mem_of_mem_filter hp)
  have hc : (70 : ℚ) < p.confidence := by
    have := (List.mem_filter.mp hp).2
    simpa using this
  apply mul_nonneg (mul_nonneg hs (by norm_num))
  apply div_nonneg (by linarith) (by norm_num)

/-- The volume component is within [0, 12] whenever the volume ratio is
nonnegative. -/
theorem volume_component_bounds (a : Analysis) (h : 0 ≤ a.volume.volume_ratio) :
    0 ≤ volume_component a ∧ volume_component a ≤ 12 := by
  unfold volume_component
  split_ifs
  · exact ⟨le_min (mul_nonneg h (by norm_num)) (by norm_num), min_le_right _ _⟩
  · exact ⟨le_refl 0, by norm_num⟩

/-- The momentum component is always within [0, 8]. -/
theorem momentum_component_bounds (a : Analysis) :
    0 ≤ momentum_component a ∧ momentum_component a ≤ 8 := by
  unfold momentum_component
  split_ifs
  · exact ⟨le_min (mul_nonneg (abs_nonneg _) (by norm_num)) (by norm_num),
      min_le_right _ _⟩
  · exact ⟨le_refl 0, by norm_num⟩

/-- The confluence component is always within [0, 18]: the multi-timeframe
branch is clamped by `max(0, min(…, 18))` and the fallback values are 10, 5
and 0. -/
theorem confluence_component_bounds (a : Analysis) :
    0 ≤ confluence_component a ∧ confluence_component a ≤ 18 := by
  unfold confluence_component
  cases a.multi_timeframe with
  | some mtf =>
    exact ⟨le_max_left 0 _, max_le (by norm_num) (min_le_right _ _)⟩
  | none => split_ifs <;> norm_num

/-- Claim C5: for every analysis input whose gap strengths, pattern
strengths, volume ratio and R² values are nonnegative and whose prices are
positive (all guaranteed by the detectors and the data model), the
opportunity score is in [0, 100] and each breakdown component respects its
documented cap: fvg ≤ 22, trendlines ≤ 18, patterns ≤ 22, volume ≤ 12,
momentum ≤ 8 and 0 ≤ confluence ≤ 18. -/
theorem c5_score_bounds (a : Analysis)
    (h1 : ∀ z ∈ a.fvg_zones, 0 ≤ z.strength)
    (h2 : ∀ p ∈ a.patterns, 0 ≤ p.strength)
    (h3 : 0 ≤ a.volume.volume_ratio)
    (h4 : ∀ tl, a.trendlines = some tl →
      0 ≤ tl.r_squared_high ∧ 0 ≤ tl.r_squared_low)
    (_h5 : ∀ x ∈ a.price_data, 0 < x) :
    0 ≤ (score_opportunity a).1 ∧ (score_opportunity a).1 ≤ 100
    ∧ (score_opportunity a).2.fvg ≤ 22
    ∧ (score_opportunity a).2.trendlines ≤ 18
    ∧ (score_opportunity a).2.patterns ≤ 22
    ∧ (score_opportunity a).2.volume ≤ 12
    ∧ (score_opportunity a).2.momentum ≤ 8
    ∧ 0 ≤ (score_opportunity a).2.confluence
    ∧ (score_opportunity a).2.confluence ≤ 18 := by
  have hf := fvg_component_bounds a h1
  have ht := trendline_component_bounds a h4
  have hp := pattern_component_bounds a h2
  have hv := volume_component_bounds a h3
  have hm := momentum_component_bounds a
  have hc := confluence_component_bounds a
  unfold score_opportunity
  dsimp only
  refine ⟨le_min (by linarith [hf.1, ht.1, hp.1, hv.1, hm.1, hc.1]) (by norm_num),
    min_le_right _ _, ?_, ?_, ?_, ?_, ?_, ?_, ?_⟩
  · exact_mod_cast round1_le_int _ 22 (by exact_mod_cast hf.2)
  · exact_mod_cast round1_le_int _ 18 (by exact_mod_cast ht.2)
  · exact_mod_cast round1_le_int _ 22 (by exact_mod_cast hp.2)
  · exact_mod_cast round1_le_int _ 12 (by exact_mod_cast hv.2)
  · exact_mod_cast round1_le_int _ 8 (by exact_mod_cast hm.2)
  · exact round1_nonneg _ hc.1
  · exact_mod_cast round1_le_int _ 18 (by exact_mod_cast hc.2)

/-- Witness for C5 at a concrete analysis: one unfilled volume-confirmed
gap of strength 8 near the price, no trendlines, a 3× volume spike, one
88%-confidence bullish pattern, ten positive prices and no multi-timeframe
result. -/
theorem c5_score_bounds_witness :
    (∀ z ∈ (⟨[⟨"BULLISH_FVG", 100, 101, 1005/10, 1/100, 8, true, 2, 3, true,
        1/100, 1, "UNFILLED"⟩], none, ⟨true, 3⟩,
        [⟨"DOUBLE_BOTTOM", "BULLISH", 7, 88⟩],
        [100, 101, 102, 103, 104, 105, 106, 107, 108, 109],
        none⟩ : Analysis).fvg_zones, 0 ≤ z.strength)
    ∧ 0 ≤ (score_opportunity ⟨[⟨"BULLISH_FVG", 100, 101, 1005/10, 1/100, 8, true,
        2, 3, true, 1/100, 1, "UNFILLED"⟩], none, ⟨true, 3⟩,
        [⟨"DOUBLE_BOTTOM", "BULLISH", 7, 88⟩],
        [100, 101, 102, 103, 104, 105, 106, 107, 108, 109], none⟩).1
    ∧ (score_opportunity ⟨[⟨"BULLISH_FVG", 100, 101, 1005/10, 1/100, 8, true,
        2, 3, true, 1/100, 1, "UNFILLED"⟩], none, ⟨true, 3⟩,
        [⟨"DOUBLE_BOTTOM", "BULLISH", 7, 88⟩],
        [100, 101, 102, 103, 104, 105, 106, 107, 108, 109], none⟩).1 ≤ 100
    ∧ (score_opportunity ⟨[⟨"BULLISH_FVG", 100, 101, 1005/10, 1/100, 8, true,
        2, 3, true, 1/100, 1, "UNFILLED"⟩], none, ⟨true, 3⟩,
        [⟨"DOUBLE_BOTTOM", "BULLISH", 7, 88⟩],
        [100, 101, 102, 103, 104, 105, 106, 107, 108, 109], none⟩).2.fvg ≤ 22
    ∧ (score_opportunity ⟨[⟨"BULLISH_FVG", 100, 101, 1005/10, 1/100, 8, true,
        2, 3, true, 1/100, 1, "UNFILLED"⟩], none, ⟨true, 3⟩,
        [⟨"DOUBLE_BOTTOM", "BULLISH", 7, 88⟩],
        [100, 101, 102, 103, 104, 105, 106, 107, 108, 109], none⟩).2.trendlines ≤ 18
    ∧ (score_opportunity ⟨[⟨"BULLISH_FVG", 100, 101, 1005/10, 1/100, 8, true,
        2, 3, true, 1/100, 1, "UNFILLED"⟩], none, ⟨true, 3⟩,
        [⟨"DOUBLE_BOTTOM", "BULLISH", 7, 88⟩],
        [100, 101, 102, 103, 104, 105, 106, 107, 108, 109], none⟩).2.patterns ≤ 22
    ∧ (score_opportunity ⟨[⟨"BULLISH_FVG", 100, 101, 1005/10, 1/100, 8, true,
        2, 3, true, 1/100, 1, "UNFILLED"⟩], none, ⟨true, 3⟩,
        [⟨"DOUBLE_BOTTOM", "BULLISH", 7, 88⟩],
        [100, 101, 102, 103, 104, 105, 106, 107, 108, 109], none⟩).2.volume ≤ 12 := by
  have h := c5_score_bounds ⟨[⟨"BULLISH_FVG", 100, 101, 1005/10, 1/100, 8, true,
      2, 3, true, 1/100, 1, "UNFILLED"⟩], none, ⟨true, 3⟩,
      [⟨"DOUBLE_BOTTOM", "BULLISH", 7, 88⟩],
      [100, 101, 102, 103, 104, 105, 106, 107, 108, 109], none⟩
    (by intro z hz; fin_cases hz; norm_num)
    (by intro p hp; fin_cases hp; norm_num)
    (by norm_num)
    (by intro tl htl; cases htl)
    (by intro x hx; fin_cases hx <;> norm_num)
  exact ⟨by intro z hz; fin_cases hz; norm_num,
    h.1, h.2.1, h.2.2.1, h.2.2.2.1, h.2.2.2.2.1, h.2.2.2.2.2.1⟩

/-- Folding `min` over positives starting from a positive value stays
positive. -/
theorem foldl_min_pos (xs : List ℚ) (acc : ℚ) (hacc : 0 < acc)
    (hxs : ∀ x ∈ xs, 0 < x) : 0 < xs.foldl min acc := by
  induction xs generalizing acc with
  | nil => exact hacc
  | cons y ys ih =>
    exact ih (min acc y) (lt_min hacc (hxs y (List.mem_cons_self y ys)))
      (fun x hx => hxs x (List.mem_cons_of_mem y hx))

/-- Python's `min` of a nonempty list of positives is positive. -/
theorem listMin_pos (l : List ℚ) (hne : l ≠ []) (h : ∀ x ∈ l, 0 < x) :
    0 < listMin l := by
  cases l with
  | nil => exact absurd rfl hne
  | cons x xs =>
    exact foldl_min_pos xs x (h x (List.mem_cons_self x xs))
      (fun y hy => h y (List.mem_cons_of_mem x hy))

/-- Folding `min` only decreases the accumulator. -/
theorem foldl_min_le (xs : List ℚ) (acc : ℚ) : xs.foldl min acc ≤ acc := by
  induction xs generalizing acc with
  | nil => exact le_refl acc
  | cons y ys ih => exact le_trans (ih (min acc y)) (min_le_left acc y)

/-- Folding `max` only increases the accumulator. -/
theorem le_foldl_max (xs : List ℚ) (acc : ℚ) : acc ≤ xs.foldl max acc := by
  induction xs generalizing acc with
  | nil => exact le_refl acc
  | cons y ys ih => exact le_trans (le_max_left acc y) (ih (max acc y))

/-- Python's `min` of a list never exceeds its `max`. -/
theorem listMin_le_listMax (l : List ℚ) : listMin l ≤ listMax l := by
  cases l with
  | nil => exact le_refl 0
  | cons x xs => exact le_trans (foldl_min_le xs x) (le_foldl_max xs x)

/-- A flag/pennant pattern found on positive closes has confidence at most
70: its consolidation range is nonnegative, so
`min((1 - range) * 70, 85) <= 70`. -/
theorem flagAt_confidence_le (closes : List ℚ) (hpos : ∀ x ∈ closes, 0 < x)
    (i : ℕ) (p : PatternZ) (h : flagAt closes i = some p) :
    p.confidence ≤ 70 := by
  simp only [flagAt] at h
  split_ifs at h with hi hmove hcons hdir
  all_goals
    obtain ⟨hi10, hi5⟩ := hi
  all_goals
    have hconsne : List.take 5 (List.drop i closes) ≠ [] := by
      have hlen : (List.take 5 (List.drop i closes)).length
          = min 5 (closes.length - i) := by
        rw [List.length_take, List.length_drop]
      intro hnil
      rw [hnil] at hlen
      simp only [List.length_nil] at hlen
      omega
  all_goals
    have hconspos : ∀ x ∈ List.take 5 (List.drop i closes), 0 < x := by
      intro x hx
      exact hpos x (List.drop_subset i closes (List.take_subset 5 _ hx))
  all_goals
    have hminpos : 0 < listMin (List.take 5 (List.drop i closes)) :=
      listMin_pos _ hconsne hconspos
  all_goals
    have hrange : 0 ≤ (listMax (List.take 5 (List.drop i closes)) -
        listMin (List.take 5 (List.drop i closes))) /
        listMin (List.take 5 (List.drop i closes)) :=
      div_nonneg (by linarith [listMin_le_listMax (List.take 5 (List.drop i closes))])
        (le_of_lt hminpos)
  all_goals
    rw [Option.some.injEq] at h
  all_goals
    have hc := congrArg PatternZ.confidence h
  all_goals
    dsimp only at hc
  all_goals
    rw [← hc]
  all_goals
    refine le_trans (min_le_left _ 85) ?_
  all_goals
    nlinarith [hrange]

/-- Every pattern the flag/pennant detector emits on positive closes has
confidence at most 70. -/
theorem detect_flag_pennant_confidence_le (df : List Candle)
    (hpos : ∀ c ∈ df, 0 < c.close) :
    ∀ p ∈ detect_flag_pennant df, p.confidence ≤ 70 := by
  intro p hp
  simp only [detect_flag_pennant] at hp
  by_cases hlen : (df.map Candle.close).length < 15
  · rw [if_pos hlen] at hp
    simp at hp
  · rw [if_neg hlen] at hp
    obtain ⟨i, _, hi⟩ := List.mem_filterMap.mp hp
    exact flagAt_confidence_le (df.map Candle.close)
      (by
        intro x hx
        obtain ⟨c, hc, rfl⟩ := List.mem_map.mp hx
        exact hpos c hc) i p hi

/-- A double/triple-top pattern's type is one of the two top labels. -/
theorem doubleTopAt_type (peaks troughs : List (ℕ × ℚ)) (i : ℕ) (p : PatternZ)
    (h : doubleTopAt peaks troughs i = some p) :
    p.type = "DOUBLE_TOP" ∨ p.type = "TRIPLE_TOP" := by
  rcases h1 : peaks.get? i with _ | p1 <;>
    rcases h2 : peaks.get? (i + 1) with _ | p2 <;>
      rw [doubleTopAt, h1, h2] at h <;> dsimp only at h
  all_goals try exact Option.noConfusion h
  split_ifs at h with hd ht hr
  rw [Option.some.injEq] at h
  subst h
  dsimp only
  rcases h3 : peaks.get? (i + 2) with _ | p3 <;> dsimp only
  · left; rfl
  · split_ifs
    · right; rfl
    · left; rfl

/-- A double/triple-bottom pattern's type is one of the two bottom labels. -/
theorem doubleBottomAt_type (peaks troughs : List (ℕ × ℚ)) (i : ℕ) (p : PatternZ)
    (h : doubleBottomAt peaks troughs i = some p) :
    p.type = "DOUBLE_BOTTOM" ∨ p.type = "TRIPLE_BOTTOM" := by
  rcases h1 : troughs.get? i with _ | t1 <;>
    rcases h2 : troughs.get? (i + 1) with _ | t2 <;>
      rw [doubleBottomAt, h1, h2] at h <;> dsimp only at h
  all_goals try exact Option.noConfusion h
  split_ifs at h with hd ht hr
  rw [Option.some.injEq] at h
  subst h
  dsimp only
  rcases h3 : troughs.get? (i + 2) with _ | t3 <;> dsimp only
  · left; rfl
  · split_ifs
    · right; rfl
    · left; rfl

/-- A head-and-shoulders pattern carries its fixed type label. -/
theorem headShouldersAt_type (peaks : List (ℕ × ℚ)) (i : ℕ) (p : PatternZ)
    (h : headShouldersAt peaks i = some p) : p.type = "HEAD_AND_SHOULDERS" := by
  rcases h1 : peaks.get? i with _ | a <;>
    rcases h2 : peaks.get? (i + 1) with _ | b <;>
      rcases h3 : peaks.get? (i + 2) with _ | c <;>
        rw [headShouldersAt, h1, h2, h3] at h <;> dsimp only at h
  all_goals try exact Option.noConfusion h
  split_ifs at h with hh hs
  rw [Option.some.injEq] at h
  subst h
  rfl

/-- A pattern from the double/triple detector carries one of the four
top/bottom labels. -/
theorem detect_double_triple_type (df : List Candle) (p : PatternZ)
    (hp : p ∈ detect_double_triple_patterns df) :
    (p.type = "DOUBLE_TOP" ∨ p.type = "TRIPLE_TOP") ∨
      (p.type = "DOUBLE_BOTTOM" ∨ p.type = "TRIPLE_BOTTOM") := by
  simp only [detect_double_triple_patterns, List.mem_append,
    List.mem_filterMap] at hp
  rcases hp with ⟨i, _, hi⟩ | ⟨i, _, hi⟩
  · exact Or.inl (doubleTopAt_type _ _ i p hi)
  · exact Or.inr (doubleBottomAt_type _ _ i p hi)

/-- A pattern from the head-and-shoulders detector carries its label. -/
theorem detect_head_shoulders_type (df : List Candle) (p : PatternZ)
    (hp : p ∈ detect_head_shoulders df) : p.type = "HEAD_AND_SHOULDERS" := by
  simp only [detect_head_shoulders] at hp
  by_cases h3 : (find_peaks (df.map Candle.high)).length < 3
  · rw [if_pos h3] at hp
    simp at hp
  · rw [if_neg h3] at hp
    obtain ⟨i, _, hi⟩ := List.mem_filterMap.mp hp
    exact headShouldersAt_type _ i p hi

/-- Claim C10: on positive closes, every flag/pennant pattern has
confidence at most 70 (its confidence is `min((1 - range) × 70, 85)` with a
nonnegative consolidation range), and therefore no BULL_FLAG or BEAR_FLAG
pattern ever passes the `confidence > 70` filter applied by the
per-timeframe scorer and the opportunity scorer — flag patterns never
contribute to the direction count or the pattern score. -/
theorem c10_flag_confidence_cap (df : List Candle)
    (hpos : ∀ c ∈ df, 0 < c.close) :
    (∀ p ∈ detect_flag_pennant df, p.confidence ≤ 70)
    ∧ (detect_pattern_formations df).filter
        (fun p => (p.type == "BULL_FLAG" || p.type == "BEAR_FLAG") &&
          decide ((70:ℚ) < p.confidence)) = [] := by
  refine ⟨detect_flag_pennant_confidence_le df hpos, ?_⟩
  rw [List.filter_eq_nil_iff]
  intro p hp
  simp only [detect_pattern_formations] at hp
  by_cases hlen : df.length < 20
  · rw [if_pos hlen] at hp
    simp at hp
  · rw [if_neg hlen] at hp
    simp only [List.mem_append] at hp
    simp only [Bool.and_eq_true, Bool.or_eq_true, beq_iff_eq, decide_eq_true_eq,
      not_and, not_lt]
    rcases hp with (hp | hp) | hp
    · intro htype
      rcases detect_double_triple_type _ p hp with (ht | ht) | (ht | ht) <;>
        rcases htype with he | he <;> rw [ht] at he <;> simp at he
    · intro htype
      have ht := detect_head_shoulders_type _ p hp
      rcases htype with he | he <;> rw [ht] at he <;> simp at he
    · intro _
      exact detect_flag_pennant_confidence_le (tailN 50 df)
        (fun c hc => hpos c (List.drop_subset _ df hc)) p hp

/-- Witness for C10 on a concrete 20-candle frame of positive closes. -/
theorem c10_flag_confidence_cap_witness :
    (∀ p ∈ detect_flag_pennant (List.replicate 20 (⟨100, 101, 99, 100, 1⟩ : Candle)),
      p.confidence ≤ 70)
    ∧ (detect_pattern_formations (List.replicate 20 (⟨100, 101, 99, 100, 1⟩ : Candle))).filter
        (fun p => (p.type == "BULL_FLAG" || p.type == "BEAR_FLAG") &&
          decide ((70:ℚ) < p.confidence)) = [] :=
  c10_flag_confidence_cap (List.replicate 20 (⟨100, 101, 99, 100, 1⟩ : Candle))
    (by
      intro c hc
      rw [List.eq_of_mem_replicate hc]
      norm_num)

/-- Every zone the gap-window loop emits records its formation index
(`i - 1`, the middle candle) and derives its status from `is_gap_filled`
on its own gap bounds. -/
theorem fvgWindow_spec (cp : ℚ) (df : List Candle) (i : ℕ) (z : FVGZone)
    (h : fvgWindow cp df i = some z) :
    z.formation_index = i - 1
    ∧ z.status = (if is_gap_filled df i z.gap_low z.gap_high = true then "FILLED"
        else "UNFILLED") := by
  rcases h1 : df.get? (i - 2) with _ | c1 <;>
    rcases h2 : df.get? (i - 1) with _ | c2 <;>
      rcases h3 : df.get? i with _ | c3 <;>
        rw [fvgWindow, h1, h2, h3] at h <;> dsimp only at h
  all_goals try exact Option.noConfusion h
  split_ifs at h
  all_goals rw [Option.some.injEq] at h
  all_goals subst h
  all_goals exact ⟨rfl, rfl⟩

/-- Every zone returned by `detect_fair_value_gaps` comes from the window
loop at some index `i ∈ [2, len(df))` and survived the age filter. -/
theorem mem_detect_fair_value_gaps (df : List Candle) (z : FVGZone)
    (hz : z ∈ detect_fair_value_gaps df) :
    ∃ i, 2 ≤ i ∧ i < df.length ∧ fvgWindow (lastClose df) df i = some z
      ∧ z.age ≤ FVG_MAX_AGE := by
  simp only [detect_fair_value_gaps] at hz
  by_cases hlen : df.length < 3
  · rw [if_pos hlen] at hz
    simp at hz
  · rw [if_neg hlen] at hz
    rw [List.mem_append] at hz
    have hact : z ∈ (((List.range df.length).filterMap
        (fun i => if i < 2 then none else fvgWindow (lastClose df) df i)).filter
        (fun z => decide (z.age ≤ FVG_MAX_AGE))) := by
      rcases hz with h | h <;> exact List.mem_of_mem_filter h
    obtain ⟨hmem, hage⟩ := List.mem_filter.mp hact
    obtain ⟨i, hrange, hi⟩ := List.mem_filterMap.mp hmem
    by_cases h2 : i < 2
    · rw [if_pos h2] at hi
      exact Option.noConfusion hi
    · rw [if_neg h2] at hi
      exact ⟨i, Nat.not_lt.mp h2, List.mem_range.mp hrange, hi,
        by simpa using hage⟩

/-- Counterexample to claim C8: on `exactFillFrame` the detector reports
the gap `[100, 110]` as UNFILLED although the later candle `[100, 107]`
overlaps exactly 70% of the gap range — the boundary case the claim says
should count as FILLED (the source tests `overlap > 0.7 * range`
strictly). -/
theorem c8_counterexample :
    ((detect_fair_value_gaps exactFillFrame).map
      (fun z => (z.gap_low, z.gap_high, z.status))) = [(100, 110, "UNFILLED")]
    ∧ specGapFilled exactFillFrame 2 100 110 = true
    ∧ min (107 : ℚ) 110 - max 100 100 = ((110 : ℚ) - 100) * (7/10) := by
  refine ⟨?_, ?_, by norm_num⟩
  · with_unfolding_all rfl
  · with_unfolding_all rfl

/-- Claim C8, amended: a detected gap zone's status is FILLED if and only
if some candle after the gap's formation window either spans the whole gap
or overlaps strictly more than 70% of the gap range; an overlap of exactly
70% (without a full span) leaves the gap UNFILLED. -/
theorem c8_amended (df : List Candle) (z : FVGZone)
    (hz : z ∈ detect_fair_value_gaps df) :
    z.status = "FILLED" ↔
      ∃ c ∈ df.drop (z.formation_index + 2),
        (c.low ≤ z.gap_low ∧ z.gap_high ≤ c.high) ∨
          (z.gap_high - z.gap_low) * (7/10) < min c.high z.gap_high - max c.low z.gap_low := by
  obtain ⟨i, hi2, hilt, hw, _⟩ := mem_detect_fair_value_gaps df z hz
  obtain ⟨hfi, hst⟩ := fvgWindow_spec (lastClose df) df i z hw
  have hidx : z.formation_index + 2 = i + 1 := by omega
  rw [hidx, hst]
  by_cases hf : is_gap_filled df i z.gap_low z.gap_high = true
  · rw [if_pos hf]
    simp only [is_gap_filled, List.any_eq_true, gapFillHit, Bool.or_eq_true,
      Bool.and_eq_true, decide_eq_true_eq] at hf
    exact ⟨fun _ => hf, fun _ => rfl⟩
  · rw [if_neg hf]
    constructor
    · intro hs
      exact absurd hs (by decide)
    · intro hex
      exact absurd (by
        simp only [is_gap_filled, List.any_eq_true, gapFillHit, Bool.or_eq_true,
          Bool.and_eq_true, decide_eq_true_eq]
        exact hex) hf

/-- Witness for C8's amended claim on `exactFillFrame`'s unique zone. -/
theorem c8_amended_witness :
    ∃ z ∈ detect_fair_value_gaps exactFillFrame,
      (z.status = "FILLED" ↔
        ∃ c ∈ exactFillFrame.drop (z.formation_index + 2),
          (c.low ≤ z.gap_low ∧ z.gap_high ≤ c.high) ∨
            (z.gap_high - z.gap_low) * (7/10) <
              min c.high z.gap_high - max c.low z.gap_low) := by
  have hmem : (detect_fair_value_gaps exactFillFrame).head? =
      some ((detect_fair_value_gaps exactFillFrame).headI) := by
    with_unfolding_all rfl
  have hm : (detect_fair_value_gaps exactFillFrame).headI ∈
      detect_fair_value_gaps exactFillFrame :=
    List.mem_of_mem_head? hmem
  exact ⟨_, hm, c8_amended exactFillFrame _ hm⟩

/-- Appending candles preserves a positive gap-fill verdict: the fill scan
only ever gains witnesses. -/
theorem is_gap_filled_append (df ext : List Candle) (gap_index : ℕ) (lo hi : ℚ)
    (h : is_gap_filled df gap_index lo hi = true) :
    is_gap_filled (df ++ ext) gap_index lo hi = true := by
  unfold is_gap_filled at h ⊢
  rw [List.drop_append_eq_append_drop, List.any_append, h, Bool.true_or]

/-- Claim C9: gap-fill status is monotone in the candle sequence — a gap
whose status is FILLED on `df` stays FILLED when any further candles are
appended (both for the raw `_is_gap_filled` scan and for the zone emitted
by the gap-window loop, whatever current price accompanies the extended
frame); the status only ever flips UNFILLED→FILLED, never back. -/
theorem c9_gap_fill_monotone (df ext : List Candle) (cp cp' : ℚ)
    (gap_index i : ℕ) (lo hi : ℚ) (z : FVGZone) :
    (is_gap_filled df gap_index lo hi = true →
      is_gap_filled (df ++ ext) gap_index lo hi = true)
    ∧ (fvgWindow cp df i = some z → z.status = "FILLED" →
        ∃ z', fvgWindow cp' (df ++ ext) i = some z' ∧ z'.status = "FILLED") := by
  constructor
  · exact is_gap_filled_append df ext gap_index lo hi
  · intro hw hstat
    rcases h1 : df.get? (i - 2) with _ | c1 <;>
      rcases h2 : df.get? (i - 1) with _ | c2 <;>
        rcases h3 : df.get? i with _ | c3 <;>
          rw [fvgWindow, h1, h2, h3] at hw <;> dsimp only at hw
    all_goals try exact Option.noConfusion hw
    have hilt : i < df.length := by
      obtain ⟨hlt, -⟩ := List.get?_eq_some.mp h3
      exact hlt
    have ha1 : (df ++ ext).get? (i - 2) = some c1 := by
      rw [List.get?_append (lt_of_le_of_lt (Nat.sub_le i 2) hilt)]
      exact h1
    have ha2 : (df ++ ext).get? (i - 1) = some c2 := by
      rw [List.get?_append (lt_of_le_of_lt (Nat.sub_le i 1) hilt)]
      exact h2
    have ha3 : (df ++ ext).get? i = some c3 := by
      rw [List.get?_append hilt]
      exact h3
    have hvol : 20 ≤ i →
        rollingVolMean20 (df ++ ext) i = rollingVolMean20 df i := by
      intro h20
      have hlenA : 20 ≤ (df.drop (i - 20)).length := by
        rw [List.length_drop]
        omega
      unfold rollingVolMean20
      rw [List.drop_append_eq_append_drop, List.take_append_eq_append_take,
        Nat.sub_eq_zero_of_le hlenA, List.take_zero, List.append_nil]
    rw [fvgWindow, ha1, ha2, ha3]
    dsimp only
    by_cases hval : c1.high ≤ 0 ∨ c1.low ≤ 0 ∨ c2.high ≤ 0 ∨ c2.low ≤ 0 ∨
        c3.high ≤ 0 ∨ c3.low ≤ 0 ∨ c2.volume ≤ 0
    · rw [if_pos hval] at hw
      exact Option.noConfusion hw
    rw [if_neg hval] at hw
    rw [if_neg hval]
    by_cases hbull : c1.high < c3.low
    · rw [if_pos hbull] at hw
      rw [if_pos hbull]
      by_cases hthr : FVG_THRESHOLD < (c3.low - c1.high) / c1.high
      · rw [if_pos hthr] at hw
        rw [if_pos hthr]
        by_cases hz : 20 ≤ i ∧ rollingVolMean20 df i = 0
        · rw [if_pos hz] at hw
          exact Option.noConfusion hw
        · rw [if_neg hz] at hw
          have hz' : ¬(20 ≤ i ∧ rollingVolMean20 (df ++ ext) i = 0) := by
            intro hc
            exact hz ⟨hc.1, by rw [← hvol hc.1]; exact hc.2⟩
          rw [if_neg hz']
          rw [Option.some.injEq] at hw
          subst hw
          have hfill : is_gap_filled df i c1.high c3.low = true := by
            by_contra hnf
            rw [Bool.not_eq_true] at hnf
            simp only [mkFVG, hnf] at hstat
            exact absurd hstat (by decide)
          refine ⟨_, rfl, ?_⟩
          simp [mkFVG, is_gap_filled_append df ext i c1.high c3.low hfill]
      · rw [if_neg hthr] at hw
        exact Option.noConfusion hw
    · rw [if_neg hbull] at hw
      rw [if_neg hbull]
      by_cases hbear : c3.high < c1.low
      · rw [if_pos hbear] at hw
        rw [if_pos hbear]
        by_cases hthr : FVG_THRESHOLD < (c1.low - c3.high) / c1.low
        · rw [if_pos hthr] at hw
          rw [if_pos hthr]
          by_cases hz : 20 ≤ i ∧ rollingVolMean20 df i = 0
          · rw [if_pos hz] at hw
            exact Option.noConfusion hw
          · rw [if_neg hz] at hw
            have hz' : ¬(20 ≤ i ∧ rollingVolMean20 (df ++ ext) i = 0) := by
              intro hc
              exact hz ⟨hc.1, by rw [← hvol hc.1]; exact hc.2⟩
            rw [if_neg hz']
            rw [Option.some.injEq] at hw
            subst hw
            have hfill : is_gap_filled df i c3.high c1.low = true := by
              by_contra hnf
              rw [Bool.not_eq_true] at hnf
              simp only [mkFVG, hnf] at hstat
              exact absurd hstat (by decide)
            refine ⟨_, rfl, ?_⟩
            simp [mkFVG, is_gap_filled_append df ext i c3.high c1.low hfill]
        · rw [if_neg hthr] at hw
          exact Option.noConfusion hw
      · rw [if_neg hbear] at hw
        exact Option.noConfusion hw

/-- Witness for C9: the filled gap of `filledFrame` stays FILLED after a
tiny unrelated candle is appended. -/
theorem c9_gap_fill_monotone_witness :
    is_gap_filled (filledFrame ++ [⟨1, 1, 1, 1, 1⟩]) 2 100 110 = true
    ∧ ∃ z', fvgWindow 5 (filledFrame ++ [⟨1, 1, 1, 1, 1⟩]) 2 = some z'
        ∧ z'.status = "FILLED" :=
  ⟨(c9_gap_fill_monotone filledFrame [⟨1, 1, 1, 1, 1⟩] 4 5 2 2 100 110
      default).1 (by with_unfolding_all rfl),
   (c9_gap_fill_monotone filledFrame [⟨1, 1, 1, 1, 1⟩] 4 5 2 2 100 110
      ((fvgWindow 4 filledFrame 2).iget)).2 (by with_unfolding_all rfl)
      (by with_unfolding_all rfl)⟩

/-- With positive volumes the 20-candle rolling volume mean at a valid
index is positive — the `ZeroDivisionError` skip can never fire. -/
theorem rollingVolMean20_pos (df : List Candle) (i : ℕ) (hlt : i < df.length)
    (hvolpos : ∀ c ∈ df, 0 < c.volume) : 0 < rollingVolMean20 df i := by
  unfold rollingVolMean20
  apply div_pos _ (by norm_num)
  apply List.sum_pos
  · intro x hx
    obtain ⟨c, hc, rfl⟩ := List.mem_map.mp hx
    exact hvolpos c (List.drop_subset _ _ (List.take_subset _ _ hc))
  · intro hemp
    have hlen : (((df.drop (i - 20)).take 20).map Candle.volume).length
        = min 20 (df.length - (i - 20)) := by
      rw [List.length_map, List.length_take, List.length_drop]
    rw [hemp] at hlen
    simp only [List.length_nil] at hlen
    omega

/-- Under the validity, gap and threshold guards, the window loop emits the
bullish zone with `gap_low = c1.high` and `gap_high = c3.low`. -/
theorem fvgWindow_bull_fields (cp : ℚ) (df : List Candle) (i : ℕ)
    (c1 c2 c3 : Candle) (h1 : df.get? (i - 2) = some c1)
    (h2 : df.get? (i - 1) = some c2) (h3 : df.get? i = some c3)
    (hvolpos : ∀ c ∈ df, 0 < c.volume)
    (hval : ¬(c1.high ≤ 0 ∨ c1.low ≤ 0 ∨ c2.high ≤ 0 ∨ c2.low ≤ 0 ∨
      c3.high ≤ 0 ∨ c3.low ≤ 0 ∨ c2.volume ≤ 0))
    (hbull : c1.high < c3.low)
    (hthr : FVG_THRESHOLD < (c3.low - c1.high) / c1.high) :
    ∃ z, fvgWindow cp df i = some z ∧ z.type = "BULLISH_FVG"
      ∧ z.gap_low = c1.high ∧ z.gap_high = c3.low ∧ z.formation_index = i - 1
      ∧ z.age = df.length - i := by
  have hlt : i < df.length := by
    obtain ⟨hlt, -⟩ := List.get?_eq_some.mp h3
    exact hlt
  have hzero : ¬(20 ≤ i ∧ rollingVolMean20 df i = 0) := by
    intro hc
    have := rollingVolMean20_pos df i hlt hvolpos
    rw [hc.2] at this
    exact lt_irrefl 0 this
  have heq : fvgWindow cp df i = some (mkFVG "BULLISH_FVG" c1.high c3.low
      ((c3.low - c1.high) / c1.high)
      (if 20 ≤ i then c2.volume / rollingVolMean20 df i else 1)
      (decide (FVG_VOLUME_CONFIRM <
        (if 20 ≤ i then c2.volume / rollingVolMean20 df i else 1)))
      (df.length - i) ((c1.high + c3.low) / 2) cp (i - 1)
      (is_gap_filled df i c1.high c3.low)) := by
    rw [fvgWindow, h1, h2, h3]
    dsimp only
    rw [if_neg hval, if_pos hbull, if_pos hthr, if_neg hzero]
  exact ⟨_, heq, rfl, rfl, rfl, rfl, rfl⟩

/-- Under the validity, gap and threshold guards (and no bullish gap), the
window loop emits the bearish zone with `gap_low = c3.high` and
`gap_high = c1.low`. -/
theorem fvgWindow_bear_fields (cp : ℚ) (df : List Candle) (i : ℕ)
    (c1 c2 c3 : Candle) (h1 : df.get? (i - 2) = some c1)
    (h2 : df.get? (i - 1) = some c2) (h3 : df.get? i = some c3)
    (hvolpos : ∀ c ∈ df, 0 < c.volume)
    (hval : ¬(c1.high ≤ 0 ∨ c1.low ≤ 0 ∨ c2.high ≤ 0 ∨ c2.low ≤ 0 ∨
      c3.high ≤ 0 ∨ c3.low ≤ 0 ∨ c2.volume ≤ 0))
    (hnbull : ¬(c1.high < c3.low))
    (hbear : c3.high < c1.low)
    (hthr : FVG_THRESHOLD < (c1.low - c3.high) / c1.low) :
    ∃ z, fvgWindow cp df i = some z ∧ z.type = "BEARISH_FVG"
      ∧ z.gap_low = c3.high ∧ z.gap_high = c1.low ∧ z.formation_index = i - 1
      ∧ z.age = df.length - i := by
  have hlt : i < df.length := by
    obtain ⟨hlt, -⟩ := List.get?_eq_some.mp h3
    exact hlt
  have hzero : ¬(20 ≤ i ∧ rollingVolMean20 df i = 0) := by
    intro hc
    have := rollingVolMean20_pos df i hlt hvolpos
    rw [hc.2] at this
    exact lt_irrefl 0 this
  have heq : fvgWindow cp df i = some (mkFVG "BEARISH_FVG" c3.high c1.low
      ((c1.low - c3.high) / c1.low)
      (if 20 ≤ i then c2.volume / rollingVolMean20 df i else 1)
      (decide (FVG_VOLUME_CONFIRM <
        (if 20 ≤ i then c2.volume / rollingVolMean20 df i else 1)))
      (df.length - i) ((c1.low + c3.high) / 2) cp (i - 1)
      (is_gap_filled df i c3.high c1.low)) := by
    rw [fvgWindow, h1, h2, h3]
    dsimp only
    rw [if_neg hval, if_neg hnbull, if_pos hbear, if_pos hthr, if_neg hzero]
  exact ⟨_, heq, rfl, rfl, rfl, rfl, rfl⟩

/-- A zone the window loop emits at a live index (age filter satisfied) is
returned by `detect_fair_value_gaps`. -/
theorem detect_mem_intro (df : List Candle) (i : ℕ) (z : FVGZone)
    (hi2 : 2 ≤ i) (hlt : i < df.length)
    (hw : fvgWindow (lastClose df) df i = some z) (hage : z.age ≤ FVG_MAX_AGE) :
    z ∈ detect_fair_value_gaps df := by
  have hlen3 : ¬df.length < 3 := by omega
  simp only [detect_fair_value_gaps]
  rw [if_neg hlen3, List.mem_append]
  have hmem : z ∈ (List.range df.length).filterMap
      (fun j => if j < 2 then none else fvgWindow (lastClose df) df j) := by
    rw [List.mem_filterMap]
    refine ⟨i, List.mem_range.mpr hlt, ?_⟩
    rw [if_neg (by omega : ¬i < 2)]
    exact hw
  have hact : z ∈ ((List.range df.length).filterMap
      (fun j => if j < 2 then none else fvgWindow (lastClose df) df j)).filter
      (fun z => decide (z.age ≤ FVG_MAX_AGE)) :=
    List.mem_filter.mpr ⟨hmem, decide_eq_true hage⟩
  obtain ⟨-, hst⟩ := fvgWindow_spec (lastClose df) df i z hw
  by_cases hf : is_gap_filled df i z.gap_low z.gap_high = true
  · right
    refine List.mem_filter.mpr ⟨hact, ?_⟩
    rw [hst, if_pos hf]
    rfl
  · left
    refine List.mem_filter.mpr ⟨hact, ?_⟩
    rw [hst, if_neg hf]
    rfl

/-- At most one returned zone carries a given formation index: the window
loop emits at most one zone per 3-candle window. -/
theorem detect_unique_window (df : List Candle) (i : ℕ) (hi2 : 2 ≤ i)
    (z : FVGZone) (hwz : fvgWindow (lastClose df) df i = some z) :
    ∀ w ∈ detect_fair_value_gaps df, w.formation_index = i - 1 → w = z := by
  intro w hw hfi
  obtain ⟨j, hj2, hjlt, hwj, -⟩ := mem_detect_fair_value_gaps df w hw
  obtain ⟨hfj, -⟩ := fvgWindow_spec (lastClose df) df j w hwj
  rw [hfj] at hfi
  have hji : j = i := by omega
  subst hji
  rw [hwj] at hwz
  exact Option.some.inj hwz

/-- Counterexample to claim C7: `agedGapFrame` has a qualifying bullish
window `(df[0], df[1], df[2])` — `df[2].low = 101 > df[0].high = 100` with
gap size 1% above the 0.5% threshold and all positive OHLCV values — yet
`detect_fair_value_gaps` emits no zone at all for it: the window is
`53 - 2 = 51` candles old and the detector drops zones older than
`FVG_MAX_AGE = 50` from its returned list. -/
theorem c7_counterexample :
    (agedGapFrame.get? 0).map Candle.high = some 100
    ∧ (agedGapFrame.get? 2).map Candle.low = some 101
    ∧ FVG_THRESHOLD < ((101 : ℚ) - 100) / 100
    ∧ agedGapFrame.length = 53
    ∧ detect_fair_value_gaps agedGapFrame = [] := by
  refine ⟨rfl, rfl, by norm_num [FVG_THRESHOLD], by rfl, ?_⟩
  with_unfolding_all rfl

/-- Claim C7, amended: for every valid 3-candle window (positive OHLCV
values, low ≤ high) that is at most `FVG_MAX_AGE = 50` candles old, if
`c3.low > c1.high` with `(c3.low - c1.high)/c1.high` above the threshold
the detector returns exactly one BULLISH zone for that window with
`gap_low = c1.high`, `gap_high = c3.low`, and symmetrically exactly one
BEARISH zone with `gap_low = c3.high`, `gap_high = c1.low` when
`c1.low > c3.high` by more than the threshold; windows older than 50
candles are dropped from the returned list. -/
theorem c7_amended (df : List Candle) (i : ℕ) (c1 c2 c3 : Candle)
    (h1 : df.get? (i - 2) = some c1) (h2 : df.get? (i - 1) = some c2)
    (h3 : df.get? i = some c3) (hi2 : 2 ≤ i)
    (hvolpos : ∀ c ∈ df, 0 < c.volume)
    (hp1 : 0 < c1.low) (hw1 : c1.low ≤ c1.high)
    (hp2 : 0 < c2.low) (hw2 : c2.low ≤ c2.high)
    (hp3 : 0 < c3.low) (hw3 : c3.low ≤ c3.high)
    (hage : df.length - i ≤ FVG_MAX_AGE) :
    (c1.high < c3.low → FVG_THRESHOLD < (c3.low - c1.high) / c1.high →
      ∃ z, (z ∈ detect_fair_value_gaps df ∧ z.type = "BULLISH_FVG"
        ∧ z.gap_low = c1.high ∧ z.gap_high = c3.low
        ∧ z.formation_index = i - 1)
        ∧ ∀ w ∈ detect_fair_value_gaps df, w.formation_index = i - 1 → w = z)
    ∧ (c3.high < c1.low → FVG_THRESHOLD < (c1.low - c3.high) / c1.low →
      ∃ z, (z ∈ detect_fair_value_gaps df ∧ z.type = "BEARISH_FVG"
        ∧ z.gap_low = c3.high ∧ z.gap_high = c1.low
        ∧ z.formation_index = i - 1)
        ∧ ∀ w ∈ detect_fair_value_gaps df, w.formation_index = i - 1 → w = z) := by
  have hlt : i < df.length := by
    obtain ⟨hlt, -⟩ := List.get?_eq_some.mp h3
    exact hlt
  have hvol2 : 0 < c2.volume := hvolpos c2 (List.get?_mem h2)
  have hval : ¬(c1.high ≤ 0 ∨ c1.low ≤ 0 ∨ c2.high ≤ 0 ∨ c2.low ≤ 0 ∨
      c3.high ≤ 0 ∨ c3.low ≤ 0 ∨ c2.volume ≤ 0) := by
    push_neg
    refine ⟨by linarith, hp1, by linarith, hp2, by linarith, hp3, hvol2⟩
  constructor
  · intro hbull hthr
    obtain ⟨z, hwz, hty, hlo, hhi, hfi, hagez⟩ := fvgWindow_bull_fields
      (lastClose df) df i c1 c2 c3 h1 h2 h3 hvolpos hval hbull hthr
    have hmem := detect_mem_intro df i z hi2 hlt hwz (by rw [hagez]; exact hage)
    exact ⟨z, ⟨hmem, hty, hlo, hhi, hfi⟩, detect_unique_window df i hi2 z hwz⟩
  · intro hbear hthr
    have hnbull : ¬(c1.high < c3.low) := by
      push_neg
      linarith
    obtain ⟨z, hwz, hty, hlo, hhi, hfi, hagez⟩ := fvgWindow_bear_fields
      (lastClose df) df i c1 c2 c3 h1 h2 h3 hvolpos hval hnbull hbear hthr
    have hmem := detect_mem_intro df i z hi2 hlt hwz (by rw [hagez]; exact hage)
    exact ⟨z, ⟨hmem, hty, hlo, hhi, hfi⟩, detect_unique_window df i hi2 z hwz⟩

/-- Witness for C7's amended claim: the bullish window of `exactFillFrame`
and the bearish window of `bearGapFrame`, each yielding exactly one zone. -/
theorem c7_amended_witness :
    (∃ z, (z ∈ detect_fair_value_gaps exactFillFrame ∧ z.type = "BULLISH_FVG"
      ∧ z.gap_low = (100 : ℚ) ∧ z.gap_high = (110 : ℚ) ∧ z.formation_index = 1)
      ∧ ∀ w ∈ detect_fair_value_gaps exactFillFrame, w.formation_index = 1 → w = z)
    ∧ (∃ z, (z ∈ detect_fair_value_gaps bearGapFrame ∧ z.type = "BEARISH_FVG"
      ∧ z.gap_low = (100 : ℚ) ∧ z.gap_high = (110 : ℚ) ∧ z.formation_index = 1)
      ∧ ∀ w ∈ detect_fair_value_gaps bearGapFrame, w.formation_index = 1 → w = z) := by
  constructor
  · exact (c7_amended exactFillFrame 2 ⟨100, 100, 99, 100, 1⟩
      ⟨100, 105, 99, 100, 1⟩ ⟨111, 112, 110, 111, 1⟩ rfl rfl rfl (by norm_num)
      (by intro c hc; fin_cases hc <;> norm_num)
      (by norm_num) (by norm_num) (by norm_num) (by norm_num) (by norm_num)
      (by norm_num) (by decide)).1 (by norm_num)
      (by norm_num [FVG_THRESHOLD])
  · exact (c7_amended bearGapFrame 2 ⟨100, 112, 110, 111, 1⟩
      ⟨100, 105, 99, 100, 1⟩ ⟨99, 100, 99, 99, 1⟩ rfl rfl rfl (by norm_num)
      (by intro c hc; fin_cases hc <;> norm_num)
      (by norm_num) (by norm_num) (by norm_num) (by norm_num) (by norm_num)
      (by norm_num) (by decide)).2 (by norm_num)
      (by norm_num [FVG_THRESHOLD])

end CryptoScanner
